import Mathlib

/-!
Verification of `dmpipe` (files `dmpipe/dm_plotting.py` and
`dmpipe/scripts/plot_castro_dm.py`) against its natural-language
specification.

The plotting surface (a matplotlib axis) is modelled as a record that the
configuration calls of the source update one by one; a plotted curve records
the data handed to `axis.plot`.  Numeric values are rationals.  The
transcendental helpers of numpy (`log10`, `10 ** x`, `sqrt`) are abstract
function parameters gathered in `RealFns`: no claim depends on their values,
only on where the source applies them.

External collaborator calls (`interp`, `getLimits`, the three log-likelihood
evaluators, `plotCastro_base`, `Table.read`, `savefig`) can raise, so they
are modelled as `Except String` valued functions, and the code's own raising
operations (indexing an empty array, `min` of an empty array) return
`Except.error "IndexError"` / `Except.error "ValueError"`, as numpy does.

A second, store-level embedding (further below) makes the mutable numpy
arrays and the dictionaries explicit cells of a heap, in order to state the
frame property (caller-supplied cells are unchanged) and determinism.
-/

/-- Equality of modelled call results is decidable, so that concrete runs
can be checked by evaluation. -/
instance {ε α : Type} [DecidableEq ε] [DecidableEq α] : DecidableEq (Except ε α) :=
  fun a b =>
    match a, b with
    | Except.error e, Except.error f =>
      if h : e = f then Decidable.isTrue (by rw [h])
      else Decidable.isFalse (fun hh => h (by injection hh))
    | Except.error _, Except.ok _ => Decidable.isFalse (fun hh => Except.noConfusion hh)
    | Except.ok _, Except.error _ => Decidable.isFalse (fun hh => Except.noConfusion hh)
    | Except.ok x, Except.ok y =>
      if h : x = y then Decidable.isTrue (by rw [h])
      else Decidable.isFalse (fun hh => h (by injection hh))

namespace DmPlotting

/-- Axis scale, as set by `set_xscale` / `set_yscale`. -/
inductive Scale where
  | linear
  | log
deriving DecidableEq, Repr

/-- Arguments of an `axis.legend(...)` call. -/
structure LegendSpec where
  loc : String
  fontsize : Option Nat := none
  ncol : Option Nat := none
deriving DecidableEq, Repr

/-- One `axis.plot(x, y, ...)` call: the data and options handed to the
plotting library. -/
structure Curve where
  xdata : List ℚ
  ydata : List ℚ
  fmt : Option String := none
  label : Option String := none
  lw : Option Nat := none
deriving DecidableEq, Repr

/-- One `axis.imshow(...)` call. -/
structure ImageSpec where
  zvals : List (List ℚ)
  extent : List ℚ
  origin : String
  aspect : String
  interpolation : String
  vmin : ℚ
  vmax : ℚ
  cmap : String
deriving DecidableEq, Repr

/-- The state of a matplotlib axis built by the source's configuration
calls. -/
structure Axis where
  xscale : Scale := Scale.linear
  yscale : Scale := Scale.linear
  xlim : Option (ℚ × ℚ) := none
  ylim : Option (ℚ × ℚ) := none
  xlabel : Option String := none
  ylabel : Option String := none
  curves : List Curve := []
  images : List ImageSpec := []
  leg : Option LegendSpec := none
deriving DecidableEq, Repr

/-- A figure; `fig.add_subplot(111)` gives it a single axis, and the axis the
caller mutates is the one the figure holds. -/
structure Figure where
  axes : List Axis
deriving DecidableEq, Repr

def Axis.set_xscale (a : Axis) (s : Scale) : Axis := { a with xscale := s }

def Axis.set_yscale (a : Axis) (s : Scale) : Axis := { a with yscale := s }

def Axis.set_xlim (a : Axis) (p : ℚ × ℚ) : Axis := { a with xlim := some p }

def Axis.set_ylim (a : Axis) (p : ℚ × ℚ) : Axis := { a with ylim := some p }

def Axis.set_xlabel (a : Axis) (s : String) : Axis := { a with xlabel := some s }

def Axis.set_ylabel (a : Axis) (s : String) : Axis := { a with ylabel := some s }

def Axis.plot (a : Axis) (x y : List ℚ) (fmt : Option String := none)
    (label : Option String := none) (lw : Option Nat := none) : Axis :=
  { a with curves := a.curves ++ [{ xdata := x, ydata := y, fmt := fmt, label := label, lw := lw }] }

def Axis.imshow (a : Axis) (im : ImageSpec) : Axis × ImageSpec :=
  ({ a with images := a.images ++ [im] }, im)

/-- `axis.legend(...)`: records the legend on the axis and returns the
legend object. -/
def Axis.legend (a : Axis) (spec : LegendSpec) : Axis × LegendSpec :=
  ({ a with leg := some spec }, spec)

/-- The transcendental numpy helpers the source applies; abstract, since no
claim depends on their numeric values. -/
structure RealFns where
  log10 : ℚ → ℚ
  exp10 : ℚ → ℚ
  sqrt : ℚ → ℚ

/-- `np.linspace a b n` (with endpoint), over ℚ. -/
def linspace (a b : ℚ) (n : ℕ) : List ℚ :=
  if n = 0 then []
  else if n = 1 then [a]
  else (List.range n).map (fun i => a + (b - a) * i / (n - 1))

/-- `np.logspace a b n` = `10 ** np.linspace a b n`. -/
def logspace (rf : RealFns) (a b : ℚ) (n : ℕ) : List ℚ :=
  (linspace a b n).map rf.exp10

/-- `arr[0]` on a numpy array: raises `IndexError` when empty. -/
def npFirst (xs : List ℚ) : Except String ℚ :=
  match xs with
  | [] => Except.error "IndexError"
  | x :: _ => Except.ok x

/-- `arr[-1]` on a numpy array: raises `IndexError` when empty. -/
def npLast (xs : List ℚ) : Except String ℚ :=
  match xs with
  | [] => Except.error "IndexError"
  | x :: t => Except.ok (t.getLastD x)

/-- `arr.min()` on a numpy array: raises `ValueError` when empty. -/
def npMin (xs : List ℚ) : Except String ℚ :=
  match xs with
  | [] => Except.error "ValueError"
  | x :: t => Except.ok (t.foldl min x)

/-- `arr.max()` on a numpy array: raises `ValueError` when empty. -/
def npMax (xs : List ℚ) : Except String ℚ :=
  match xs with
  | [] => Except.error "ValueError"
  | x :: t => Except.ok (t.foldl max x)

/-- `arr.min()` as a value, defaulted on the empty array (the raising
behaviour is `npMin`). -/
def minD (xs : List ℚ) (d : ℚ) : ℚ :=
  match xs with
  | [] => d
  | x :: t => t.foldl min x

/-- `arr.max()` as a value, defaulted on the empty array. -/
def maxD (xs : List ℚ) (d : ℚ) : ℚ :=
  match xs with
  | [] => d
  | x :: t => t.foldl max x

/-- `yvals -= yvals.min()` as a value transformation. -/
def shiftMin (ys : List ℚ) : List ℚ :=
  ys.map (fun y => y - minD ys 0)

/-- `np.sqrt(m[0:-1] * m[1:])`: the geometric means of adjacent entries. -/
def geomMeans (rf : RealFns) (xs : List ℚ) : List ℚ :=
  ((xs.dropLast).zip (xs.drop 1)).map (fun p => rf.sqrt (p.1 * p.2))

/-- A `CastroData` / `DMCastroData`-like collaborator as `plot_limits`,
`compare_limits` and `plot_limit` consume it: a masses array and a
confidence-limit extractor.  `getLimits` is external code and may raise. -/
structure CastL where
  masses : List ℚ
  getLimits : ℚ → Except String (List ℚ)

/-- A per-object likelihood interpolant as `plot_nll` and `plot_stacked`
consume it: called on an array of cross-sections, returns the array of
log-likelihood values.  External code; may raise. -/
structure NLLi where
  interp : List ℚ → Except String (List ℚ)

/-- The `LnLFn_norm_prior`-like collaborator consumed by `plot_comparison`. -/
structure NLLComp where
  xmin : ℚ
  xmax : ℚ
  straight_loglike : List ℚ → Except String (List ℚ)
  profile_loglike : List ℚ → Except String (List ℚ)
  marginal_loglike : List ℚ → Except String (List ℚ)

/-- A `CastroData`-like input of `plot_dm_castro`: the masses array plus the
opaque payload `plotCastro_base` consumes. -/
structure CastD (π : Type) where
  masses : List ℚ
  payload : π

/-- The keyword arguments `plot_dm_castro` hands to
`sed_plotting.plotCastro_base`. -/
structure PCArgs where
  xlims : ℚ × ℚ
  ylims : ℚ × ℚ
  xlabel : String
  ylabel : String
  nstep : ℕ
  zlims : Option (ℚ × ℚ)
deriving DecidableEq, Repr

/-- The cross-section grid of `plot_nll`:
`np.logspace(np.log10(xmin), np.log10(xmax), nstep)` with the source's
defaults for a missing `xlims`. -/
def nllGrid (rf : RealFns) (xlims : Option (ℚ × ℚ)) (nstep : ℕ) : List ℚ :=
  let xmin : ℚ := match xlims with | none => 1 / 10 ^ 28 | some p => p.1
  let xmax : ℚ := match xlims with | none => 1 / 10 ^ 24 | some p => p.2
  logspace rf (rf.log10 xmin) (rf.log10 xmax) nstep

/-- The cross-section grid of `plot_comparison`:
`np.linspace(xmin, xmax, nstep)` with the interpolant's own range for a
missing `xlims`. -/
def compGrid (nll : NLLComp) (xlims : Option (ℚ × ℚ)) (nstep : ℕ) : List ℚ :=
  let xmin : ℚ := match xlims with | none => nll.xmin | some p => p.1
  let xmax : ℚ := match xlims with | none => nll.xmax | some p => p.2
  linspace xmin xmax nstep

def mass_label : String := "$m_\x7b\\chi\x7d$ [GeV]"

def sigmav_label : String := "$\\langle \\sigma v \\rangle$ [$cm^{3} s^{-1}$]"

def sigmav_label_cm : String := "$\\langle \\sigma v \\rangle$ [cm$^3$ s$^{-1}$]"

def delta_logl_label : String := "$\\Delta \\log\\mathcal{L}$"

/-- `plot_dm_castro`: a pure delegation to `sed_plotting.plotCastro_base`
with x-limits read off the masses array and fixed labels.  `pcb` is the
external `plotCastro_base`. -/
def plot_dm_castro {π R : Type} (pcb : CastD π → PCArgs → Except String R)
    (castro_dm : CastD π)
    (ylims : ℚ × ℚ := (1 / 10 ^ 28, 1 / 10 ^ 22))
    (nstep : ℕ := 100) (zlims : Option (ℚ × ℚ) := none) : Except String R := do
  let x0 ← npFirst castro_dm.masses
  let x1 ← npLast castro_dm.masses
  pcb castro_dm
    { xlims := (x0, x1), ylims := ylims, xlabel := mass_label,
      ylabel := sigmav_label, nstep := nstep, zlims := zlims }

/-- `plot_castro_nuiscance`: configures an axis (log y-scale, limits,
labels) and shows the nuisance-parameter likelihood image.  No fallible
call occurs, so it is total. -/
def plot_castro_nuiscance (xlims ylims : ℚ × ℚ) (zvals : List (List ℚ))
    (zlims : Option (ℚ × ℚ) := none) : Figure × Axis × ImageSpec :=
  let axis : Axis := {}
  let axis := axis.set_yscale Scale.log
  let axis := axis.set_xlim xlims
  let axis := axis.set_ylim ylims
  let axis := axis.set_xlabel "$\\delta J / J$"
  let axis := axis.set_ylabel sigmav_label_cm
  let zmin : ℚ := match zlims with | none => 0 | some z => z.1
  let zmax : ℚ := match zlims with | none => 10 | some z => z.2
  let (axis, image) := axis.imshow
    { zvals := zvals, extent := [xlims.1, xlims.2, ylims.1, ylims.2],
      origin := "lower", aspect := "auto", interpolation := "nearest",
      vmin := zmin, vmax := zmax, cmap := "jet_r" }
  ({ axes := [axis] }, axis, image)

/-- One iteration of the `plot_nll` loop: evaluate the interpolant on the
grid, shift by the minimum in place, and plot. -/
def plotNllStep (xvals : List ℚ) (axis : Axis) (kv : String × NLLi) :
    Except String Axis := do
  let yvals ← kv.2.interp xvals
  let m ← npMin yvals
  let yvals := yvals.map (fun y => y - m)
  pure (axis.plot xvals yvals none (some kv.1) none)

/-- `plot_nll`: -log(L) versus cross-section for each object of the dict. -/
def plot_nll (rf : RealFns) (nll_dict : List (String × NLLi))
    (xlims : Option (ℚ × ℚ) := none) (nstep : ℕ := 50)
    (ylims : Option (ℚ × ℚ) := none) :
    Except String (Figure × Axis × LegendSpec) := do
  let xmin : ℚ := match xlims with | none => 1 / 10 ^ 28 | some p => p.1
  let xmax : ℚ := match xlims with | none => 1 / 10 ^ 24 | some p => p.2
  let xvals := nllGrid rf xlims nstep
  let axis : Axis := {}
  let axis := axis.set_xlim (xmin, xmax)
  let axis := match ylims with | none => axis | some p => axis.set_ylim (p.1, p.2)
  let axis := axis.set_xlabel sigmav_label_cm
  let axis := axis.set_ylabel delta_logl_label
  let axis := axis.set_xscale Scale.log
  let axis ← nll_dict.foldlM (plotNllStep xvals) axis
  let (axis, leg) := axis.legend { loc := "upper left" }
  pure ({ axes := [axis] }, axis, leg)

/-- `plot_comparison`: the three log-likelihood variants on a linear grid,
plotted raw (the marginal curve is computed but its plot is commented
out in the source). -/
def plot_comparison (nll : NLLComp) (nstep : ℕ := 25)
    (xlims : Option (ℚ × ℚ) := none) :
    Except String (Figure × Axis × LegendSpec) := do
  let xmin : ℚ := match xlims with | none => nll.xmin | some p => p.1
  let xmax : ℚ := match xlims with | none => nll.xmax | some p => p.2
  let xvals := compGrid nll xlims nstep
  let yvals_0 ← nll.straight_loglike xvals
  let yvals_1 ← nll.profile_loglike xvals
  let yvals_2 ← nll.marginal_loglike xvals
  let m0 ← npMin yvals_0
  let m1 ← npMin yvals_1
  let m2 ← npMin yvals_2
  let ymin : ℚ := min (min (min m0 m1) m2) 0
  let M0 ← npMax yvals_0
  let M1 ← npMax yvals_1
  let M2 ← npMax yvals_2
  let ymax : ℚ := max (max (max M0 M1) M2) (1 / 2)
  let axis : Axis := {}
  let axis := axis.set_xlim (xmin, xmax)
  let axis := axis.set_ylim (ymin, ymax)
  let axis := axis.set_xlabel sigmav_label_cm
  let axis := axis.set_ylabel delta_logl_label
  let axis := axis.plot xvals yvals_0 (some "r") (some "Simple $\\log\\mathcal{L}$") none
  let axis := axis.plot xvals yvals_1 (some "g") (some "Profile $\\log\\mathcal{L}$") none
  let (axis, leg) := axis.legend { loc := "upper left" }
  pure ({ axes := [axis] }, axis, leg)

/-- One iteration of the `plot_stacked` loop: the curve whose key is
"stacked" (case-insensitively) is plotted raw with line width 3; every
other curve is shifted by its minimum. -/
def plotStackedStep (xvals : List ℚ) (axis : Axis) (kv : String × NLLi) :
    Except String Axis := do
  let yvals ← kv.2.interp xvals
  if kv.1.toLower = "stacked" then
    pure (axis.plot xvals yvals none (some kv.1) (some 3))
  else do
    let m ← npMin yvals
    let yvals := yvals.map (fun y => y - m)
    pure (axis.plot xvals yvals none (some kv.1) none)

/-- `plot_stacked`: builds the fresh dict `ndict` of the `ibin`-th bin of
each entry and plots each curve; the value of `sdict` is indexable by bin.
The x-limits are read off the 100-point grid (`xvals[0]`, `xvals[-1]`),
which is never empty, so those reads are total. -/
def plot_stacked (sdict : List (String × (ℕ → NLLi))) (xlims : ℚ × ℚ)
    (ibin : ℕ := 0) : Except String (Figure × Axis × LegendSpec) := do
  let ndict : List (String × NLLi) := sdict.map (fun kv => (kv.1, kv.2 ibin))
  let xvals := linspace xlims.1 xlims.2 100
  let axis : Axis := {}
  let axis := axis.set_xlim (xvals.headD 0, xvals.getLastD 0)
  let axis := axis.set_xlabel sigmav_label_cm
  let axis := axis.set_ylabel delta_logl_label
  let axis ← ndict.foldlM (plotStackedStep xvals) axis
  let (axis, leg) := axis.legend { loc := "upper left", fontsize := some 10, ncol := some 2 }
  pure ({ axes := [axis] }, axis, leg)

/-- One iteration of the `plot_limits` loop: the limits of the entry are
plotted against its masses, unchanged; the "stacked" key gets line
width 3. -/
def plotLimitsStep (alpha : ℚ) (axis : Axis) (kv : String × CastL) :
    Except String Axis := do
  let xvals := kv.2.masses
  let yvals ← kv.2.getLimits alpha
  if kv.1.toLower = "stacked" then
    pure (axis.plot xvals yvals none (some kv.1) (some 3))
  else
    pure (axis.plot xvals yvals none (some kv.1) none)

/-- `plot_limits`: upper limits versus DM mass for each entry of the dict,
on log-log axes. -/
def plot_limits (sdict : List (String × CastL)) (xlims ylims : ℚ × ℚ)
    (alpha : ℚ := 1 / 20) : Except String (Figure × Axis × LegendSpec) := do
  let axis : Axis := {}
  let axis := axis.set_xlabel mass_label
  let axis := axis.set_ylabel sigmav_label_cm
  let axis := axis.set_xscale Scale.log
  let axis := axis.set_yscale Scale.log
  let axis := axis.set_xlim (xlims.1, xlims.2)
  let axis := axis.set_ylim (ylims.1, ylims.2)
  let axis ← sdict.foldlM (plotLimitsStep alpha) axis
  let (axis, leg) := axis.legend { loc := "upper left" }
  pure ({ axes := [axis] }, axis, leg)

/-- One iteration of the `compare_limits` loop: every curve plotted the same
way, limits against masses, unchanged. -/
def compareLimitsStep (alpha : ℚ) (axis : Axis) (kv : String × CastL) :
    Except String Axis := do
  let xvals := kv.2.masses
  let yvals ← kv.2.getLimits alpha
  pure (axis.plot xvals yvals none (some kv.1) none)

/-- `compare_limits`: like `plot_limits` but without axis labels, with a
two-column legend, and with no special-casing of the "stacked" key. -/
def compare_limits (sdict : List (String × CastL)) (xlims ylims : ℚ × ℚ)
    (alpha : ℚ := 1 / 20) : Except String (Figure × Axis × LegendSpec) := do
  let axis : Axis := {}
  let axis := axis.set_xscale Scale.log
  let axis := axis.set_yscale Scale.log
  let axis := axis.set_xlim (xlims.1, xlims.2)
  let axis := axis.set_ylim (ylims.1, ylims.2)
  let axis ← sdict.foldlM (compareLimitsStep alpha) axis
  let (axis, leg) := axis.legend { loc := "upper left", fontsize := some 10, ncol := some 2 }
  pure ({ axes := [axis] }, axis, leg)

/-- `plot_limit`: the limit curve of one `DMCastroData`; the x-values are
the masses themselves when the limits array has the same length, and the
geometric means of adjacent masses otherwise.  No label, no legend. -/
def plot_limit (rf : RealFns) (dm_castro_data : CastL) (ylims : Option (ℚ × ℚ))
    (alpha : ℚ := 1 / 20) : Except String (Figure × Axis) := do
  let xbins := dm_castro_data.masses
  let xmin ← npFirst xbins
  let xmax ← npLast xbins
  let axis : Axis := {}
  let axis := axis.set_xscale Scale.log
  let axis := axis.set_yscale Scale.log
  let axis := axis.set_xlim (xmin, xmax)
  let axis := match ylims with | none => axis | some p => axis.set_ylim (p.1, p.2)
  let yvals ← dm_castro_data.getLimits alpha
  let xvals := if yvals.length = xbins.length then xbins else geomMeans rf xbins
  let axis := axis.plot xvals yvals none none none
  pure ({ axes := [axis] }, axis)

end DmPlotting

namespace PlotCastroDm

open DmPlotting

/-- The parsed command line of `plot_castro_dm.py`: `--chan` and `--input`
are required strings, `--output` defaults to `None`. -/
structure Args where
  chan : String
  input : String
  output : Option String := none

/-- Python truthiness of `args.output` (an `Optional[str]`): `None` and the
empty string are falsy. -/
def truthy : Option String → Bool
  | none => false
  | some s => s ≠ ""

/-- The external collaborators of the script: `Table.read` (file and HDU
name), `DMCastroData.create_from_tables`, `plotCastro_base` behind
`plot_dm_castro`, the subscript `dm_plot[0]` and `Figure.savefig`.  `τ` is
the astropy table type, `π` the opaque part of a `DMCastroData`, `R` what
`plotCastro_base` returns, `F` the type of `dm_plot[0]`. -/
structure Env (τ π R F : Type) where
  read : String → String → Except String τ
  create_from_tables : τ → τ → Except String (CastD π)
  pcb : CastD π → PCArgs → Except String R
  proj0 : R → F
  savefig : F → String → Except String Unit

/-- `main` of `plot_castro_dm.py`: read the `MASSES` and channel tables,
build the `DMCastroData`, plot it (with `plot_dm_castro`'s defaults), and
either save the figure and return `None`, or return the plot.  The second
component of the result records the `savefig` calls performed, in order. -/
def main {τ π R F : Type} (env : Env τ π R F) (args : Args) :
    Except String (Option R × List (F × String)) := do
  let tab_m ← env.read args.input "MASSES"
  let tab_s ← env.read args.input args.chan
  let dm_castro ← env.create_from_tables tab_s tab_m
  let dm_plot ← plot_dm_castro env.pcb dm_castro
  if truthy args.output then do
    let path := args.output.getD ""
    _ ← env.savefig (env.proj0 dm_plot) path
    pure (none, [(env.proj0 dm_plot, path)])
  else
    pure (some dm_plot, [])

end PlotCastroDm

namespace StoreSem

open DmPlotting

/-!
The store-level embedding.  The mutable numpy arrays reachable from a
caller's inputs, and the arrays the external collaborators return (each call
returns a fresh array), are cells of an explicit heap; the dictionaries the
caller supplies are cells of a second heap.  Reads are total (`getD`): the
error behaviour of the code on malformed inputs is the primary embedding's
concern, while this embedding states which cells a call writes.  Local
temporaries never aliased by a caller cell (grids built by `np.linspace`,
the fresh `ndict` of `plot_stacked`) stay by value.  The external
collaborators are deterministic pure functions here, as the spec assumes. -/

/-- The heap: numpy array cells and dict cells (dict values of type `V`). -/
structure Store (V : Type) where
  arrays : List (List ℚ)
  dicts : List (List (String × V))

def Store.allocArr {V : Type} (s : Store V) (a : List ℚ) : Store V × ℕ :=
  ({ s with arrays := s.arrays ++ [a] }, s.arrays.length)

def Store.readArr {V : Type} (s : Store V) (r : ℕ) : List ℚ :=
  s.arrays.getD r []

def Store.writeArr {V : Type} (s : Store V) (r : ℕ) (a : List ℚ) : Store V :=
  { s with arrays := s.arrays.set r a }

def Store.readDict {V : Type} (s : Store V) (r : ℕ) : List (String × V) :=
  s.dicts.getD r []

/-- Every cell of `s` survives unchanged into `s'` (the heap may grow). -/
def Preserves {V : Type} (s s' : Store V) : Prop :=
  s.arrays.length ≤ s'.arrays.length ∧
  s.dicts.length ≤ s'.dicts.length ∧
  (∀ i, i < s.arrays.length → s'.arrays[i]? = s.arrays[i]?) ∧
  (∀ i, i < s.dicts.length → s'.dicts[i]? = s.dicts[i]?)

/-- A likelihood interpolant at the store level: pure, returning the values
of a fresh array. -/
structure NLLs where
  interp : List ℚ → List ℚ

/-- A `CastroData`-like object at the store level: its masses array is a
heap cell, its limit extractor is pure and returns a fresh array. -/
structure CastS where
  masses : ℕ
  getLimits : ℚ → List ℚ

/-- A `CastroData` input of `plot_dm_castro` at the store level. -/
structure CastDs (π : Type) where
  masses : ℕ
  payload : π

/-- One `plot_nll` iteration at the store level: `interp` returns a fresh
array cell, which is then shifted in place and plotted. -/
def plotNllStepS (xvals : List ℚ) (sa : Store NLLs × Axis) (kv : String × NLLs) :
    Store NLLs × Axis :=
  let s1 := (sa.1.allocArr (kv.2.interp xvals)).1
  let yr := (sa.1.allocArr (kv.2.interp xvals)).2
  let m := minD (s1.readArr yr) 0
  let s2 := s1.writeArr yr ((s1.readArr yr).map (fun y => y - m))
  (s2, sa.2.plot xvals (s2.readArr yr) none (some kv.1) none)

/-- `plot_nll` at the store level; `nll_dictR` is the dict cell holding the
caller's dictionary. -/
def plot_nllS (rf : RealFns) (s : Store NLLs) (nll_dictR : ℕ)
    (xlims : Option (ℚ × ℚ)) (nstep : ℕ) (ylims : Option (ℚ × ℚ)) :
    Store NLLs × (Figure × Axis × LegendSpec) :=
  let xmin : ℚ := match xlims with | none => 1 / 10 ^ 28 | some p => p.1
  let xmax : ℚ := match xlims with | none => 1 / 10 ^ 24 | some p => p.2
  let xvals := nllGrid rf xlims nstep
  let axis : Axis := {}
  let axis := axis.set_xlim (xmin, xmax)
  let axis := match ylims with | none => axis | some p => axis.set_ylim (p.1, p.2)
  let axis := axis.set_xlabel sigmav_label_cm
  let axis := axis.set_ylabel delta_logl_label
  let axis := axis.set_xscale Scale.log
  let sa := (s.readDict nll_dictR).foldl (plotNllStepS xvals) (s, axis)
  let axis2 := (sa.2.legend { loc := "upper left" }).1
  let leg := (sa.2.legend { loc := "upper left" }).2
  (sa.1, ({ axes := [axis2] }, axis2, leg))

/-- One `plot_stacked` iteration at the store level. -/
def plotStackedStepS (xvals : List ℚ) (sa : Store (ℕ → NLLs) × Axis)
    (kv : String × NLLs) : Store (ℕ → NLLs) × Axis :=
  let s1 := (sa.1.allocArr (kv.2.interp xvals)).1
  let yr := (sa.1.allocArr (kv.2.interp xvals)).2
  if kv.1.toLower = "stacked" then
    (s1, sa.2.plot xvals (s1.readArr yr) none (some kv.1) (some 3))
  else
    let m := minD (s1.readArr yr) 0
    let s2 := s1.writeArr yr ((s1.readArr yr).map (fun y => y - m))
    (s2, sa.2.plot xvals (s2.readArr yr) none (some kv.1) none)

/-- `plot_stacked` at the store level: the fresh `ndict` is built from the
caller's dict cell and the caller's cell is only read. -/
def plot_stackedS (s : Store (ℕ → NLLs)) (sdictR : ℕ) (xlims : ℚ × ℚ)
    (ibin : ℕ) : Store (ℕ → NLLs) × (Figure × Axis × LegendSpec) :=
  let ndict : List (String × NLLs) :=
    (s.readDict sdictR).map (fun kv => (kv.1, kv.2 ibin))
  let xvals := linspace xlims.1 xlims.2 100
  let axis : Axis := {}
  let axis := axis.set_xlim (xvals.headD 0, xvals.getLastD 0)
  let axis := axis.set_xlabel sigmav_label_cm
  let axis := axis.set_ylabel delta_logl_label
  let sa := ndict.foldl (plotStackedStepS xvals) (s, axis)
  let axis2 := (sa.2.legend { loc := "upper left", fontsize := some 10, ncol := some 2 }).1
  let leg := (sa.2.legend { loc := "upper left", fontsize := some 10, ncol := some 2 }).2
  (sa.1, ({ axes := [axis2] }, axis2, leg))

/-- One `plot_limits` iteration at the store level: the masses cell is read,
the limits land in a fresh cell, nothing is written. -/
def plotLimitsStepS (alpha : ℚ) (sa : Store CastS × Axis) (kv : String × CastS) :
    Store CastS × Axis :=
  let xvals := sa.1.readArr kv.2.masses
  let s1 := (sa.1.allocArr (kv.2.getLimits alpha)).1
  let yr := (sa.1.allocArr (kv.2.getLimits alpha)).2
  let yvals := s1.readArr yr
  if kv.1.toLower = "stacked" then
    (s1, sa.2.plot xvals yvals none (some kv.1) (some 3))
  else
    (s1, sa.2.plot xvals yvals none (some kv.1) none)

/-- `plot_limits` at the store level. -/
def plot_limitsS (s : Store CastS) (sdictR : ℕ) (xlims ylims : ℚ × ℚ)
    (alpha : ℚ) : Store CastS × (Figure × Axis × LegendSpec) :=
  let axis : Axis := {}
  let axis := axis.set_xlabel mass_label
  let axis := axis.set_ylabel sigmav_label_cm
  let axis := axis.set_xscale Scale.log
  let axis := axis.set_yscale Scale.log
  let axis := axis.set_xlim (xlims.1, xlims.2)
  let axis := axis.set_ylim (ylims.1, ylims.2)
  let sa := (s.readDict sdictR).foldl (plotLimitsStepS alpha) (s, axis)
  let axis2 := (sa.2.legend { loc := "upper left" }).1
  let leg := (sa.2.legend { loc := "upper left" }).2
  (sa.1, ({ axes := [axis2] }, axis2, leg))

/-- One `compare_limits` iteration at the store level. -/
def compareLimitsStepS (alpha : ℚ) (sa : Store CastS × Axis) (kv : String × CastS) :
    Store CastS × Axis :=
  let xvals := sa.1.readArr kv.2.masses
  let s1 := (sa.1.allocArr (kv.2.getLimits alpha)).1
  let yr := (sa.1.allocArr (kv.2.getLimits alpha)).2
  (s1, sa.2.plot xvals (s1.readArr yr) none (some kv.1) none)

/-- `compare_limits` at the store level. -/
def compare_limitsS (s : Store CastS) (sdictR : ℕ) (xlims ylims : ℚ × ℚ)
    (alpha : ℚ) : Store CastS × (Figure × Axis × LegendSpec) :=
  let axis : Axis := {}
  let axis := axis.set_xscale Scale.log
  let axis := axis.set_yscale Scale.log
  let axis := axis.set_xlim (xlims.1, xlims.2)
  let axis := axis.set_ylim (ylims.1, ylims.2)
  let sa := (s.readDict sdictR).foldl (compareLimitsStepS alpha) (s, axis)
  let axis2 := (sa.2.legend { loc := "upper left", fontsize := some 10, ncol := some 2 }).1
  let leg := (sa.2.legend { loc := "upper left", fontsize := some 10, ncol := some 2 }).2
  (sa.1, ({ axes := [axis2] }, axis2, leg))

/-- `plot_limit` at the store level. -/
def plot_limitS {V : Type} (rf : RealFns) (s : Store V) (dm_castro_data : CastS)
    (ylims : Option (ℚ × ℚ)) (alpha : ℚ) : Store V × (Figure × Axis) :=
  let xbins := s.readArr dm_castro_data.masses
  let xmin := xbins.headD 0
  let xmax := xbins.getLastD 0
  let axis : Axis := {}
  let axis := axis.set_xscale Scale.log
  let axis := axis.set_yscale Scale.log
  let axis := axis.set_xlim (xmin, xmax)
  let axis := match ylims with | none => axis | some p => axis.set_ylim (p.1, p.2)
  let s1 := (s.allocArr (dm_castro_data.getLimits alpha)).1
  let yr := (s.allocArr (dm_castro_data.getLimits alpha)).2
  let yvals := s1.readArr yr
  let xvals := if yvals.length = xbins.length then xbins else geomMeans rf xbins
  let axis := axis.plot xvals yvals none none none
  (s1, ({ axes := [axis] }, axis))

/-- `plot_dm_castro` at the store level: the masses cell is read, nothing is
allocated or written, and the delegate consumes the value view. -/
def plot_dm_castroS {V π R : Type} (pcb : CastD π → PCArgs → R) (s : Store V)
    (castro_dm : CastDs π) (ylims : ℚ × ℚ) (nstep : ℕ)
    (zlims : Option (ℚ × ℚ)) : Store V × R :=
  let masses := s.readArr castro_dm.masses
  (s, pcb { masses := masses, payload := castro_dm.payload }
    { xlims := (masses.headD 0, masses.getLastD 0), ylims := ylims,
      xlabel := mass_label, ylabel := sigmav_label, nstep := nstep,
      zlims := zlims })

/-- A `LnLFn_norm_prior`-like collaborator at the store level (pure). -/
structure NLLCompS where
  xmin : ℚ
  xmax : ℚ
  straight_loglike : List ℚ → List ℚ
  profile_loglike : List ℚ → List ℚ
  marginal_loglike : List ℚ → List ℚ

/-- `plot_comparison` at the store level: the three result arrays are local
temporaries never aliased by a caller cell, so the store is untouched. -/
def plot_comparisonS {V : Type} (s : Store V) (nll : NLLCompS) (nstep : ℕ)
    (xlims : Option (ℚ × ℚ)) : Store V × (Figure × Axis × LegendSpec) :=
  let xmin : ℚ := match xlims with | none => nll.xmin | some p => p.1
  let xmax : ℚ := match xlims with | none => nll.xmax | some p => p.2
  let xvals := linspace xmin xmax nstep
  let yvals_0 := nll.straight_loglike xvals
  let yvals_1 := nll.profile_loglike xvals
  let yvals_2 := nll.marginal_loglike xvals
  let ymin : ℚ := min (min (min (minD yvals_0 0) (minD yvals_1 0)) (minD yvals_2 0)) 0
  let ymax : ℚ := max (max (max (maxD yvals_0 0) (maxD yvals_1 0)) (maxD yvals_2 0)) (1 / 2)
  let axis : Axis := {}
  let axis := axis.set_xlim (xmin, xmax)
  let axis := axis.set_ylim (ymin, ymax)
  let axis := axis.set_xlabel sigmav_label_cm
  let axis := axis.set_ylabel delta_logl_label
  let axis := axis.plot xvals yvals_0 (some "r") (some "Simple $\\log\\mathcal{L}$") none
  let axis := axis.plot xvals yvals_1 (some "g") (some "Profile $\\log\\mathcal{L}$") none
  let axis2 := (axis.legend { loc := "upper left" }).1
  let leg := (axis.legend { loc := "upper left" }).2
  (s, ({ axes := [axis2] }, axis2, leg))

/-- `plot_castro_nuiscance` at the store level: the image consumes its
inputs by value and the store is untouched. -/
def plot_castro_nuiscanceS {V : Type} (s : Store V) (xlims ylims : ℚ × ℚ)
    (zvals : List (List ℚ)) (zlims : Option (ℚ × ℚ)) :
    Store V × (Figure × Axis × ImageSpec) :=
  (s, plot_castro_nuiscance xlims ylims zvals zlims)

end StoreSem

/-! ## Lemmas about the `Except` embedding -/

namespace DmPlotting

lemma bind_ok {α β : Type} (a : α) (f : α → Except String β) :
    (Except.ok a >>= f) = f a := rfl

lemma bind_error {α β : Type} (e : String) (f : α → Except String β) :
    ((Except.error e : Except String α) >>= f) = Except.error e := rfl

lemma ok_of_bind {α β : Type} {m : Except String α} {f : α → Except String β} {b : β}
    (h : (m >>= f) = Except.ok b) : ∃ a, m = Except.ok a ∧ f a = Except.ok b := by
  cases m with
  | error e => exact absurd h (by simp [bind_error])
  | ok a => exact ⟨a, rfl, h⟩

lemma npMin_eq_minD {ys : List ℚ} (h : ys ≠ []) : npMin ys = Except.ok (minD ys 0) := by
  cases ys with
  | nil => exact absurd rfl h
  | cons y t => rfl

lemma npMax_eq_maxD {ys : List ℚ} (h : ys ≠ []) : npMax ys = Except.ok (maxD ys 0) := by
  cases ys with
  | nil => exact absurd rfl h
  | cons y t => rfl

lemma foldl_min_map_sub (t : List ℚ) : ∀ y c : ℚ,
    ((t.map (fun v => v - c)).foldl min (y - c)) = t.foldl min y - c := by
  induction t with
  | nil => intro y c; rfl
  | cons a t ih =>
    intro y c
    simp only [List.map_cons, List.foldl_cons]
    rw [min_sub_sub_right]
    exact ih _ c

/-- Shifting an array by its minimum leaves an array whose minimum is 0. -/
lemma minD_shiftMin {ys : List ℚ} (h : ys ≠ []) : minD (shiftMin ys) 0 = 0 := by
  obtain ⟨y, t, rfl⟩ := List.exists_cons_of_ne_nil h
  show minD ((y :: t).map (fun v => v - t.foldl min y)) 0 = 0
  simp only [List.map_cons]
  show ((t.map (fun v => v - t.foldl min y)).foldl min (y - t.foldl min y)) = 0
  rw [foldl_min_map_sub]
  exact sub_self _

/-- A fold whose every step appends one curve appends the mapped list. -/
lemma foldlM_plot_ok {ε : Type} (step : Axis → ε → Except String Axis) (g : ε → Curve) :
    ∀ l : List ε,
    (∀ (a : Axis) (x : ε), x ∈ l →
      step a x = Except.ok { a with curves := a.curves ++ [g x] }) →
    ∀ a : Axis, l.foldlM step a = Except.ok { a with curves := a.curves ++ l.map g } := by
  intro l
  induction l with
  | nil =>
    intro _ a
    simp only [List.foldlM_nil, List.map_nil, List.append_nil]
    rfl
  | cons x t ih =>
    intro h a
    rw [List.foldlM_cons, h a x (List.mem_cons_self x t), bind_ok,
      ih (fun a y hy => h a y (List.mem_cons_of_mem x hy))]
    simp

/-- A fold hits an erroring step after successful ones: the error is the
fold's result, unchanged. -/
lemma foldlM_first_error {β ε : Type} (step : β → ε → Except String β) (e : String) :
    ∀ (pre : List ε) (x : ε) (rest : List ε),
    (∀ (a : β) (y : ε), y ∈ pre → ∃ a', step a y = Except.ok a') →
    (∀ a : β, step a x = Except.error e) →
    ∀ a : β, (pre ++ x :: rest).foldlM step a = Except.error e := by
  intro pre
  induction pre with
  | nil =>
    intro x rest _ hx a
    rw [List.nil_append, List.foldlM_cons, hx a, bind_error]
  | cons p t ih =>
    intro x rest hpre hx a
    obtain ⟨a', ha'⟩ := hpre a p (List.mem_cons_self p t)
    rw [List.cons_append, List.foldlM_cons, ha', bind_ok]
    exact ih x rest (fun a y hy => hpre a y (List.mem_cons_of_mem p hy)) hx a'

lemma plotNllStep_ok {xvals : List ℚ} {kv : String × NLLi} {ys : List ℚ}
    (h : kv.2.interp xvals = Except.ok ys) (hne : ys ≠ []) (a : Axis) :
    plotNllStep xvals a kv =
      Except.ok { a with curves := a.curves ++ [⟨xvals, shiftMin ys, none, some kv.1, none⟩] } := by
  unfold plotNllStep
  rw [h, bind_ok, npMin_eq_minD hne, bind_ok]
  rfl

lemma plotStackedStep_ok {xvals : List ℚ} {kv : String × NLLi} {ys : List ℚ}
    (h : kv.2.interp xvals = Except.ok ys)
    (hne : kv.1.toLower ≠ "stacked" → ys ≠ []) (a : Axis) :
    plotStackedStep xvals a kv = Except.ok { a with curves := a.curves ++
      [if kv.1.toLower = "stacked" then ⟨xvals, ys, none, some kv.1, some 3⟩
       else ⟨xvals, shiftMin ys, none, some kv.1, none⟩] } := by
  unfold plotStackedStep
  rw [h, bind_ok]
  by_cases hs : kv.1.toLower = "stacked"
  · rw [if_pos hs, if_pos hs]
    rfl
  · rw [if_neg hs, if_neg hs, npMin_eq_minD (hne hs), bind_ok]
    rfl

lemma plotLimitsStep_ok {alpha : ℚ} {kv : String × CastL} {ys : List ℚ}
    (h : kv.2.getLimits alpha = Except.ok ys) (a : Axis) :
    plotLimitsStep alpha a kv = Except.ok { a with curves := a.curves ++
      [⟨kv.2.masses, ys, none, some kv.1,
        if kv.1.toLower = "stacked" then some 3 else none⟩] } := by
  unfold plotLimitsStep
  rw [h, bind_ok]
  by_cases hs : kv.1.toLower = "stacked"
  · rw [if_pos hs, if_pos hs]
    rfl
  · rw [if_neg hs, if_neg hs]
    rfl

lemma compareLimitsStep_ok {alpha : ℚ} {kv : String × CastL} {ys : List ℚ}
    (h : kv.2.getLimits alpha = Except.ok ys) (a : Axis) :
    compareLimitsStep alpha a kv = Except.ok { a with curves := a.curves ++
      [⟨kv.2.masses, ys, none, some kv.1, none⟩] } := by
  unfold compareLimitsStep
  rw [h, bind_ok]
  rfl

lemma plotNllStep_error {xvals : List ℚ} {kv : String × NLLi} {e : String}
    (h : kv.2.interp xvals = Except.error e) (a : Axis) :
    plotNllStep xvals a kv = Except.error e := by
  unfold plotNllStep
  rw [h, bind_error]

lemma plotStackedStep_error {xvals : List ℚ} {kv : String × NLLi} {e : String}
    (h : kv.2.interp xvals = Except.error e) (a : Axis) :
    plotStackedStep xvals a kv = Except.error e := by
  unfold plotStackedStep
  rw [h, bind_error]

lemma plotLimitsStep_error {alpha : ℚ} {kv : String × CastL} {e : String}
    (h : kv.2.getLimits alpha = Except.error e) (a : Axis) :
    plotLimitsStep alpha a kv = Except.error e := by
  unfold plotLimitsStep
  rw [h, bind_error]

lemma compareLimitsStep_error {alpha : ℚ} {kv : String × CastL} {e : String}
    (h : kv.2.getLimits alpha = Except.error e) (a : Axis) :
    compareLimitsStep alpha a kv = Except.error e := by
  unfold compareLimitsStep
  rw [h, bind_error]

/-- What `plot_nll` returns when every interpolant answers the grid with a
nonempty array: one curve per dict entry, in dict order, each shifted by its
own minimum, with the entry's key as label, and a legend at the upper
left. -/
lemma plot_nll_ok (rf : RealFns) (d : List (String × NLLi)) (xl : Option (ℚ × ℚ))
    (n : ℕ) (yl : Option (ℚ × ℚ)) (f : String × NLLi → List ℚ)
    (hf : ∀ kv ∈ d, kv.2.interp (nllGrid rf xl n) = Except.ok (f kv) ∧ f kv ≠ []) :
    ∃ ax : Axis,
      plot_nll rf d xl n yl = Except.ok ({ axes := [ax] }, ax, { loc := "upper left" }) ∧
      ax.curves = d.map
        (fun kv => ⟨nllGrid rf xl n, shiftMin (f kv), none, some kv.1, none⟩) ∧
      ax.leg = some { loc := "upper left" } := by
  simp only [plot_nll]
  rw [foldlM_plot_ok (plotNllStep (nllGrid rf xl n))
      (fun kv => ⟨nllGrid rf xl n, shiftMin (f kv), none, some kv.1, none⟩) d
      (fun a kv hkv => plotNllStep_ok (hf kv hkv).1 (hf kv hkv).2 a) _, bind_ok]
  cases yl with
  | none =>
    exact ⟨_, rfl, by simp [Axis.set_xlim, Axis.set_xlabel, Axis.set_ylabel,
      Axis.set_xscale, Axis.legend], rfl⟩
  | some p =>
    exact ⟨_, rfl, by simp [Axis.set_xlim, Axis.set_ylim, Axis.set_xlabel,
      Axis.set_ylabel, Axis.set_xscale, Axis.legend], rfl⟩

/-- What `plot_stacked` returns when every selected interpolant answers the
grid: the "stacked" curve raw with line width 3, every other curve shifted
by its own minimum. -/
lemma plot_stacked_ok (sdict : List (String × (ℕ → NLLi))) (xlims : ℚ × ℚ) (ibin : ℕ)
    (f : String × NLLi → List ℚ)
    (hf : ∀ kv ∈ sdict.map (fun kv => (kv.1, kv.2 ibin)),
      kv.2.interp (linspace xlims.1 xlims.2 100) = Except.ok (f kv) ∧
      (kv.1.toLower ≠ "stacked" → f kv ≠ [])) :
    ∃ ax : Axis,
      plot_stacked sdict xlims ibin = Except.ok
        ({ axes := [ax] }, ax, { loc := "upper left", fontsize := some 10, ncol := some 2 }) ∧
      ax.curves = (sdict.map (fun kv => (kv.1, kv.2 ibin))).map (fun kv =>
        if kv.1.toLower = "stacked" then
          ⟨linspace xlims.1 xlims.2 100, f kv, none, some kv.1, some 3⟩
        else
          ⟨linspace xlims.1 xlims.2 100, shiftMin (f kv), none, some kv.1, none⟩) ∧
      ax.leg = some { loc := "upper left", fontsize := some 10, ncol := some 2 } := by
  simp only [plot_stacked]
  rw [foldlM_plot_ok (plotStackedStep (linspace xlims.1 xlims.2 100))
      (fun kv => if kv.1.toLower = "stacked" then
          ⟨linspace xlims.1 xlims.2 100, f kv, none, some kv.1, some 3⟩
        else ⟨linspace xlims.1 xlims.2 100, shiftMin (f kv), none, some kv.1, none⟩)
      _ (fun a kv hkv => plotStackedStep_ok (hf kv hkv).1 (hf kv hkv).2 a) _, bind_ok]
  exact ⟨_, rfl, by simp [Axis.set_xlim, Axis.set_xlabel, Axis.set_ylabel, Axis.legend], rfl⟩

/-- What `plot_limits` returns when every limit extraction answers: one curve
per dict entry, limits against masses unchanged, log-log axes clipped to the
given limits. -/
lemma plot_limits_ok (sdict : List (String × CastL)) (xlims ylims : ℚ × ℚ) (alpha : ℚ)
    (f : String × CastL → List ℚ)
    (hf : ∀ kv ∈ sdict, kv.2.getLimits alpha = Except.ok (f kv)) :
    ∃ ax : Axis,
      plot_limits sdict xlims ylims alpha = Except.ok ({ axes := [ax] }, ax, { loc := "upper left" }) ∧
      ax.curves = sdict.map (fun kv => ⟨kv.2.masses, f kv, none, some kv.1,
        if kv.1.toLower = "stacked" then some 3 else none⟩) ∧
      ax.leg = some { loc := "upper left" } ∧
      ax.xscale = Scale.log ∧ ax.yscale = Scale.log ∧
      ax.xlim = some (xlims.1, xlims.2) ∧ ax.ylim = some (ylims.1, ylims.2) ∧
      ax.xlabel = some mass_label ∧ ax.ylabel = some sigmav_label_cm := by
  simp only [plot_limits]
  rw [foldlM_plot_ok (plotLimitsStep alpha)
      (fun kv => ⟨kv.2.masses, f kv, none, some kv.1,
        if kv.1.toLower = "stacked" then some 3 else none⟩)
      _ (fun a kv hkv => plotLimitsStep_ok (hf kv hkv) a) _, bind_ok]
  exact ⟨_, rfl, by simp [Axis.set_xlim, Axis.set_ylim, Axis.set_xlabel,
    Axis.set_ylabel, Axis.set_xscale, Axis.set_yscale, Axis.legend], rfl, rfl, rfl, rfl, rfl, rfl, rfl⟩

/-- What `compare_limits` returns when every limit extraction answers: one
curve per entry, limits against masses unchanged, no special-casing. -/
lemma compare_limits_ok (sdict : List (String × CastL)) (xlims ylims : ℚ × ℚ) (alpha : ℚ)
    (f : String × CastL → List ℚ)
    (hf : ∀ kv ∈ sdict, kv.2.getLimits alpha = Except.ok (f kv)) :
    ∃ ax : Axis,
      compare_limits sdict xlims ylims alpha = Except.ok
        ({ axes := [ax] }, ax, { loc := "upper left", fontsize := some 10, ncol := some 2 }) ∧
      ax.curves = sdict.map (fun kv => ⟨kv.2.masses, f kv, none, some kv.1, none⟩) ∧
      ax.leg = some { loc := "upper left", fontsize := some 10, ncol := some 2 } ∧
      ax.xscale = Scale.log ∧ ax.yscale = Scale.log ∧
      ax.xlim = some (xlims.1, xlims.2) ∧ ax.ylim = some (ylims.1, ylims.2) := by
  simp only [compare_limits]
  rw [foldlM_plot_ok (compareLimitsStep alpha)
      (fun kv => ⟨kv.2.masses, f kv, none, some kv.1, none⟩)
      _ (fun a kv hkv => compareLimitsStep_ok (hf kv hkv) a) _, bind_ok]
  exact ⟨_, rfl, by simp [Axis.set_xlim, Axis.set_ylim, Axis.set_xscale,
    Axis.set_yscale, Axis.legend], rfl, rfl, rfl, rfl, rfl⟩

/-- What `plot_comparison` returns when the three log-likelihood evaluators
answer the grid with nonempty arrays: the simple and profile curves plotted
raw, the marginal curve computed but not plotted. -/
lemma plot_comparison_ok (nll : NLLComp) (n : ℕ) (xl : Option (ℚ × ℚ))
    (f0 f1 f2 : List ℚ)
    (h0 : nll.straight_loglike (compGrid nll xl n) = Except.ok f0)
    (h1 : nll.profile_loglike (compGrid nll xl n) = Except.ok f1)
    (h2 : nll.marginal_loglike (compGrid nll xl n) = Except.ok f2)
    (hne0 : f0 ≠ []) (hne1 : f1 ≠ []) (hne2 : f2 ≠ []) :
    ∃ ax : Axis,
      plot_comparison nll n xl = Except.ok ({ axes := [ax] }, ax, { loc := "upper left" }) ∧
      ax.curves = [⟨compGrid nll xl n, f0, some "r", some "Simple $\\log\\mathcal{L}$", none⟩,
        ⟨compGrid nll xl n, f1, some "g", some "Profile $\\log\\mathcal{L}$", none⟩] ∧
      ax.leg = some { loc := "upper left" } := by
  simp only [plot_comparison]
  rw [h0, bind_ok, h1, bind_ok, h2, bind_ok, npMin_eq_minD hne0, bind_ok,
    npMin_eq_minD hne1, bind_ok, npMin_eq_minD hne2, bind_ok,
    npMax_eq_maxD hne0, bind_ok, npMax_eq_maxD hne1, bind_ok,
    npMax_eq_maxD hne2, bind_ok]
  exact ⟨_, rfl, by simp [Axis.set_xlim, Axis.set_ylim, Axis.set_xlabel,
    Axis.set_ylabel, Axis.plot, Axis.legend], rfl⟩

/-- What `plot_limit` returns on a nonempty masses array when the limit
extraction answers: a single unlabeled curve whose x-values are the masses
when the lengths agree and the geometric means of adjacent masses otherwise;
no legend. -/
lemma plot_limit_ok (rf : RealFns) (cd : CastL) (ylims : Option (ℚ × ℚ)) (alpha : ℚ)
    (m0 : ℚ) (ms : List ℚ) (ys : List ℚ)
    (h1 : cd.masses = m0 :: ms) (h2 : cd.getLimits alpha = Except.ok ys) :
    ∃ ax : Axis,
      plot_limit rf cd ylims alpha = Except.ok ({ axes := [ax] }, ax) ∧
      ax.curves = [⟨if ys.length = cd.masses.length then cd.masses
                    else geomMeans rf cd.masses, ys, none, none, none⟩] ∧
      ax.leg = none := by
  simp only [plot_limit, h1, npFirst, npLast, h2, bind_ok]
  cases ylims with
  | none =>
    exact ⟨_, rfl, by simp [Axis.set_xlim, Axis.set_xscale, Axis.set_yscale,
      Axis.plot, h1], rfl⟩
  | some p =>
    exact ⟨_, rfl, by simp [Axis.set_xlim, Axis.set_ylim, Axis.set_xscale,
      Axis.set_yscale, Axis.plot, h1], rfl⟩

/-- `plot_dm_castro` on a nonempty masses array is exactly one call of the
delegate, with x-limits read off the masses array and the fixed labels. -/
lemma plot_dm_castro_eq {π R : Type} (pcb : CastD π → PCArgs → Except String R)
    (cd : CastD π) (ylims : ℚ × ℚ) (nstep : ℕ) (zlims : Option (ℚ × ℚ))
    (m0 : ℚ) (ms : List ℚ) (h : cd.masses = m0 :: ms) :
    plot_dm_castro pcb cd ylims nstep zlims =
      pcb cd { xlims := (m0, ms.getLastD m0), ylims := ylims, xlabel := mass_label,
               ylabel := sigmav_label, nstep := nstep, zlims := zlims } := by
  simp only [plot_dm_castro, h, npFirst, npLast, bind_ok]

/-- Whatever the collaborators did, an `ok` result of `plot_nll` is the
figure of its own axis, and the returned legend is on that axis. -/
lemma plot_nll_ok_inv {rf : RealFns} {d : List (String × NLLi)}
    {xl yl : Option (ℚ × ℚ)} {n : ℕ} {t : Figure × Axis × LegendSpec}
    (h : plot_nll rf d xl n yl = Except.ok t) :
    t.1.axes = [t.2.1] ∧ t.2.1.leg = some t.2.2 := by
  simp only [plot_nll] at h
  obtain ⟨a, -, h⟩ := ok_of_bind h
  simp only [Axis.legend] at h
  have h2 := Except.ok.inj h
  rw [← h2]
  exact ⟨rfl, rfl⟩

/-- An `ok` result of `plot_stacked` is the figure of its own axis, with the
returned legend on that axis. -/
lemma plot_stacked_ok_inv {sdict : List (String × (ℕ → NLLi))} {xlims : ℚ × ℚ}
    {ibin : ℕ} {t : Figure × Axis × LegendSpec}
    (h : plot_stacked sdict xlims ibin = Except.ok t) :
    t.1.axes = [t.2.1] ∧ t.2.1.leg = some t.2.2 := by
  simp only [plot_stacked] at h
  obtain ⟨a, -, h⟩ := ok_of_bind h
  simp only [Axis.legend] at h
  have h2 := Except.ok.inj h
  rw [← h2]
  exact ⟨rfl, rfl⟩

/-- An `ok` result of `plot_limits` is the figure of its own axis, with the
returned legend on that axis. -/
lemma plot_limits_ok_inv {sdict : List (String × CastL)} {xlims ylims : ℚ × ℚ}
    {alpha : ℚ} {t : Figure × Axis × LegendSpec}
    (h : plot_limits sdict xlims ylims alpha = Except.ok t) :
    t.1.axes = [t.2.1] ∧ t.2.1.leg = some t.2.2 := by
  simp only [plot_limits] at h
  obtain ⟨a, -, h⟩ := ok_of_bind h
  simp only [Axis.legend] at h
  have h2 := Except.ok.inj h
  rw [← h2]
  exact ⟨rfl, rfl⟩

/-- An `ok` result of `compare_limits` is the figure of its own axis, with
the returned legend on that axis. -/
lemma compare_limits_ok_inv {sdict : List (String × CastL)} {xlims ylims : ℚ × ℚ}
    {alpha : ℚ} {t : Figure × Axis × LegendSpec}
    (h : compare_limits sdict xlims ylims alpha = Except.ok t) :
    t.1.axes = [t.2.1] ∧ t.2.1.leg = some t.2.2 := by
  simp only [compare_limits] at h
  obtain ⟨a, -, h⟩ := ok_of_bind h
  simp only [Axis.legend] at h
  have h2 := Except.ok.inj h
  rw [← h2]
  exact ⟨rfl, rfl⟩

/-- An `ok` result of `plot_comparison` is the figure of its own axis, with
the returned legend on that axis. -/
lemma plot_comparison_ok_inv {nll : NLLComp} {n : ℕ} {xl : Option (ℚ × ℚ)}
    {t : Figure × Axis × LegendSpec}
    (h : plot_comparison nll n xl = Except.ok t) :
    t.1.axes = [t.2.1] ∧ t.2.1.leg = some t.2.2 := by
  simp only [plot_comparison] at h
  obtain ⟨y0, -, h⟩ := ok_of_bind h
  obtain ⟨y1, -, h⟩ := ok_of_bind h
  obtain ⟨y2, -, h⟩ := ok_of_bind h
  obtain ⟨m0, -, h⟩ := ok_of_bind h
  obtain ⟨m1, -, h⟩ := ok_of_bind h
  obtain ⟨m2, -, h⟩ := ok_of_bind h
  obtain ⟨M0, -, h⟩ := ok_of_bind h
  obtain ⟨M1, -, h⟩ := ok_of_bind h
  obtain ⟨M2, -, h⟩ := ok_of_bind h
  simp only [Axis.legend] at h
  have h2 := Except.ok.inj h
  rw [← h2]
  exact ⟨rfl, rfl⟩

/-- An `ok` result of `plot_limit` is the figure of its own axis, and no
legend was added to that axis. -/
lemma plot_limit_ok_inv {rf : RealFns} {cd : CastL} {ylims : Option (ℚ × ℚ)}
    {alpha : ℚ} {t : Figure × Axis}
    (h : plot_limit rf cd ylims alpha = Except.ok t) :
    t.1.axes = [t.2] ∧ t.2.leg = none := by
  cases ylims with
  | none =>
    simp only [plot_limit] at h
    obtain ⟨x0, -, h⟩ := ok_of_bind h
    obtain ⟨x1, -, h⟩ := ok_of_bind h
    obtain ⟨ys, -, h⟩ := ok_of_bind h
    have h2 := Except.ok.inj h
    rw [← h2]
    exact ⟨rfl, rfl⟩
  | some p =>
    simp only [plot_limit] at h
    obtain ⟨x0, -, h⟩ := ok_of_bind h
    obtain ⟨x1, -, h⟩ := ok_of_bind h
    obtain ⟨ys, -, h⟩ := ok_of_bind h
    have h2 := Except.ok.inj h
    rw [← h2]
    exact ⟨rfl, rfl⟩

/-- `plot_castro_nuiscance` never adds a legend, returns the figure holding
its axis, and hands `zvals` to the image unchanged. -/
lemma plot_castro_nuiscance_spec (xl yl : ℚ × ℚ) (z : List (List ℚ))
    (zl : Option (ℚ × ℚ)) :
    (plot_castro_nuiscance xl yl z zl).2.1.leg = none ∧
    (plot_castro_nuiscance xl yl z zl).1.axes = [(plot_castro_nuiscance xl yl z zl).2.1] ∧
    (plot_castro_nuiscance xl yl z zl).2.2.zvals = z :=
  ⟨rfl, rfl, rfl⟩

end DmPlotting

/-! ## Lemmas about the store-level embedding -/

namespace StoreSem

open DmPlotting

lemma preserves_refl {V : Type} (s : Store V) : Preserves s s :=
  ⟨le_refl _, le_refl _, fun _ _ => rfl, fun _ _ => rfl⟩

lemma preserves_trans {V : Type} {s1 s2 s3 : Store V}
    (h12 : Preserves s1 s2) (h23 : Preserves s2 s3) : Preserves s1 s3 := by
  obtain ⟨la, ld, ha, hd⟩ := h12
  obtain ⟨la2, ld2, ha2, hd2⟩ := h23
  exact ⟨le_trans la la2, le_trans ld ld2,
    fun i hi => (ha2 i (lt_of_lt_of_le hi la)).trans (ha i hi),
    fun i hi => (hd2 i (lt_of_lt_of_le hi ld)).trans (hd i hi)⟩

lemma preserves_allocArr {V : Type} {s s2 : Store V} (h : Preserves s s2)
    (a : List ℚ) : Preserves s (s2.allocArr a).1 := by
  obtain ⟨la, ld, ha, hd⟩ := h
  refine ⟨?_, ld, ?_, hd⟩
  · simp only [Store.allocArr, List.length_append, List.length_cons, List.length_nil]
    omega
  · intro i hi
    simp only [Store.allocArr]
    rw [List.getElem?_append_left (lt_of_lt_of_le hi la)]
    exact ha i hi

lemma preserves_writeArr {V : Type} {s s2 : Store V} {r : ℕ} (h : Preserves s s2)
    (hr : s.arrays.length ≤ r) (a : List ℚ) : Preserves s (s2.writeArr r a) := by
  obtain ⟨la, ld, ha, hd⟩ := h
  refine ⟨?_, ld, ?_, hd⟩
  · simpa only [Store.writeArr, List.length_set] using la
  · intro i hi
    simp only [Store.writeArr]
    rw [List.getElem?_set_ne (by omega : r ≠ i)]
    exact ha i hi

lemma readArr_of_preserves {V : Type} {s s2 : Store V} (h : Preserves s s2) {r : ℕ}
    (hr : r < s.arrays.length) : s2.readArr r = s.readArr r := by
  simp only [Store.readArr, List.getD_eq_getElem?_getD]
  rw [h.2.2.1 r hr]

lemma readDict_of_preserves {V : Type} {s s2 : Store V} (h : Preserves s s2) {r : ℕ}
    (hr : r < s.dicts.length) : s2.readDict r = s.readDict r := by
  simp only [Store.readDict, List.getD_eq_getElem?_getD]
  rw [h.2.2.2 r hr]

lemma allocArr_read_self {V : Type} (s : Store V) (a : List ℚ) :
    (s.allocArr a).1.readArr (s.allocArr a).2 = a := by
  simp only [Store.allocArr, Store.readArr, List.getD_eq_getElem?_getD]
  rw [List.getElem?_concat_length]
  rfl

lemma allocArr_length {V : Type} (s : Store V) (a : List ℚ) :
    (s.allocArr a).1.arrays.length = s.arrays.length + 1 := by
  simp [Store.allocArr]

lemma writeArr_read_self {V : Type} (s : Store V) {r : ℕ}
    (hr : r < s.arrays.length) (a : List ℚ) : (s.writeArr r a).readArr r = a := by
  simp only [Store.writeArr, Store.readArr, List.getD_eq_getElem?_getD]
  rw [List.getElem?_set_eq_of_lt a hr]
  rfl

lemma alloc_write_read {V : Type} (s : Store V) (v w : List ℚ) :
    (((s.allocArr v).1.writeArr (s.allocArr v).2 w).readArr (s.allocArr v).2) = w := by
  apply writeArr_read_self
  rw [allocArr_length]
  exact Nat.lt_succ_self _

lemma dicts_allocArr {V : Type} (s : Store V) (a : List ℚ) :
    (s.allocArr a).1.dicts = s.dicts := rfl

lemma dicts_writeArr {V : Type} (s : Store V) (r : ℕ) (a : List ℚ) :
    (s.writeArr r a).dicts = s.dicts := rfl

/-- A loop whose every step preserves the incoming cells preserves them as a
whole. -/
lemma foldl_preserves {V ε : Type} (step : Store V × Axis → ε → Store V × Axis)
    (hstep : ∀ sa e, Preserves sa.1 (step sa e).1) :
    ∀ (l : List ε) (sa : Store V × Axis), Preserves sa.1 (l.foldl step sa).1 := by
  intro l
  induction l with
  | nil => intro sa; exact preserves_refl _
  | cons x t ih =>
    intro sa
    exact preserves_trans (hstep sa x) (ih (step sa x))

/-- A loop whose every step leaves the dict heap alone leaves it alone. -/
lemma foldl_dicts_const {V ε : Type} (step : Store V × Axis → ε → Store V × Axis)
    (hstep : ∀ sa e, (step sa e).1.dicts = sa.1.dicts) :
    ∀ (l : List ε) (sa : Store V × Axis), (l.foldl step sa).1.dicts = sa.1.dicts := by
  intro l
  induction l with
  | nil => intro sa; rfl
  | cons x t ih =>
    intro sa
    rw [List.foldl_cons, ih (step sa x), hstep sa x]

lemma plotNllStepS_preserves (xvals : List ℚ) (sa : Store NLLs × Axis)
    (kv : String × NLLs) : Preserves sa.1 (plotNllStepS xvals sa kv).1 :=
  preserves_writeArr (preserves_allocArr (preserves_refl sa.1) _) (le_refl _) _

lemma plotNllStepS_dicts (xvals : List ℚ) (sa : Store NLLs × Axis)
    (kv : String × NLLs) : (plotNllStepS xvals sa kv).1.dicts = sa.1.dicts := rfl

lemma plotNllStepS_axis (xvals : List ℚ) (sa : Store NLLs × Axis) (kv : String × NLLs) :
    (plotNllStepS xvals sa kv).2 =
      sa.2.plot xvals (shiftMin (kv.2.interp xvals)) none (some kv.1) none := by
  simp only [plotNllStepS]
  rw [allocArr_read_self, alloc_write_read]
  rfl

lemma plotStackedStepS_preserves (xvals : List ℚ) (sa : Store (ℕ → NLLs) × Axis)
    (kv : String × NLLs) : Preserves sa.1 (plotStackedStepS xvals sa kv).1 := by
  simp only [plotStackedStepS]
  by_cases hs : kv.1.toLower = "stacked"
  · rw [if_pos hs]
    exact preserves_allocArr (preserves_refl sa.1) _
  · rw [if_neg hs]
    exact preserves_writeArr (preserves_allocArr (preserves_refl sa.1) _) (le_refl _) _

lemma plotStackedStepS_dicts (xvals : List ℚ) (sa : Store (ℕ → NLLs) × Axis)
    (kv : String × NLLs) : (plotStackedStepS xvals sa kv).1.dicts = sa.1.dicts := by
  simp only [plotStackedStepS]
  split
  · rfl
  · rfl

lemma plotStackedStepS_axis (xvals : List ℚ) (sa : Store (ℕ → NLLs) × Axis)
    (kv : String × NLLs) :
    (plotStackedStepS xvals sa kv).2 =
      if kv.1.toLower = "stacked" then
        sa.2.plot xvals (kv.2.interp xvals) none (some kv.1) (some 3)
      else
        sa.2.plot xvals (shiftMin (kv.2.interp xvals)) none (some kv.1) none := by
  simp only [plotStackedStepS]
  by_cases hs : kv.1.toLower = "stacked"
  · rw [if_pos hs, if_pos hs, allocArr_read_self]
  · rw [if_neg hs, if_neg hs]
    rw [allocArr_read_self, alloc_write_read]
    rfl

lemma plotLimitsStepS_preserves (alpha : ℚ) (sa : Store CastS × Axis)
    (kv : String × CastS) : Preserves sa.1 (plotLimitsStepS alpha sa kv).1 := by
  simp only [plotLimitsStepS]
  by_cases hs : kv.1.toLower = "stacked"
  · rw [if_pos hs]
    exact preserves_allocArr (preserves_refl sa.1) _
  · rw [if_neg hs]
    exact preserves_allocArr (preserves_refl sa.1) _

lemma plotLimitsStepS_dicts (alpha : ℚ) (sa : Store CastS × Axis)
    (kv : String × CastS) : (plotLimitsStepS alpha sa kv).1.dicts = sa.1.dicts := by
  simp only [plotLimitsStepS]
  split
  · rfl
  · rfl

lemma plotLimitsStepS_axis (alpha : ℚ) (sa : Store CastS × Axis) (kv : String × CastS) :
    (plotLimitsStepS alpha sa kv).2 =
      sa.2.plot (sa.1.readArr kv.2.masses) (kv.2.getLimits alpha) none (some kv.1)
        (if kv.1.toLower = "stacked" then some 3 else none) := by
  simp only [plotLimitsStepS]
  by_cases hs : kv.1.toLower = "stacked"
  · rw [if_pos hs, if_pos hs, allocArr_read_self]
  · rw [if_neg hs, if_neg hs, allocArr_read_self]

lemma compareLimitsStepS_preserves (alpha : ℚ) (sa : Store CastS × Axis)
    (kv : String × CastS) : Preserves sa.1 (compareLimitsStepS alpha sa kv).1 :=
  preserves_allocArr (preserves_refl sa.1) _

lemma compareLimitsStepS_dicts (alpha : ℚ) (sa : Store CastS × Axis)
    (kv : String × CastS) : (compareLimitsStepS alpha sa kv).1.dicts = sa.1.dicts := rfl

lemma compareLimitsStepS_axis (alpha : ℚ) (sa : Store CastS × Axis) (kv : String × CastS) :
    (compareLimitsStepS alpha sa kv).2 =
      sa.2.plot (sa.1.readArr kv.2.masses) (kv.2.getLimits alpha) none (some kv.1) none := by
  simp only [compareLimitsStepS]
  rw [allocArr_read_self]

/-- A loop whose step's axis effect does not depend on the store computes
the fold of that effect. -/
lemma foldl_axis_indep {V ε : Type} (step : Store V × Axis → ε → Store V × Axis)
    (g : ε → Axis → Axis)
    (hstep : ∀ (st : Store V) (a : Axis) (e : ε), (step (st, a) e).2 = g e a) :
    ∀ (l : List ε) (sa : Store V × Axis),
      (l.foldl step sa).2 = l.foldl (fun a e => g e a) sa.2 := by
  intro l
  induction l with
  | nil => intro sa; rfl
  | cons x t ih =>
    intro sa
    rw [List.foldl_cons, List.foldl_cons, ih (step sa x), hstep sa.1 sa.2 x]

end StoreSem

namespace StoreSem

open DmPlotting

lemma plot_nllS_preserves (rf : RealFns) (s : Store NLLs) (r : ℕ)
    (xl : Option (ℚ × ℚ)) (n : ℕ) (yl : Option (ℚ × ℚ)) :
    Preserves s (plot_nllS rf s r xl n yl).1 := by
  simp only [plot_nllS]
  exact foldl_preserves _ (plotNllStepS_preserves _) _ (s, _)

lemma plot_nllS_dicts (rf : RealFns) (s : Store NLLs) (r : ℕ)
    (xl : Option (ℚ × ℚ)) (n : ℕ) (yl : Option (ℚ × ℚ)) :
    (plot_nllS rf s r xl n yl).1.dicts = s.dicts := by
  simp only [plot_nllS]
  exact foldl_dicts_const _ (plotNllStepS_dicts _) _ (s, _)

/-- The figure `plot_nllS` draws depends on the store only through the dict
cell it reads. -/
lemma plot_nllS_fig_congr (rf : RealFns) {s s2 : Store NLLs} (r : ℕ)
    (xl : Option (ℚ × ℚ)) (n : ℕ) (yl : Option (ℚ × ℚ))
    (h : s2.readDict r = s.readDict r) :
    (plot_nllS rf s2 r xl n yl).2 = (plot_nllS rf s r xl n yl).2 := by
  simp only [plot_nllS]
  simp only [foldl_axis_indep (plotNllStepS (nllGrid rf xl n))
    (fun kv a => a.plot (nllGrid rf xl n) (shiftMin (kv.2.interp (nllGrid rf xl n)))
      none (some kv.1) none)
    (fun st a kv => plotNllStepS_axis (nllGrid rf xl n) (st, a) kv)]
  rw [h]

lemma plot_stackedS_preserves (s : Store (ℕ → NLLs)) (r : ℕ) (xlims : ℚ × ℚ)
    (ibin : ℕ) : Preserves s (plot_stackedS s r xlims ibin).1 := by
  simp only [plot_stackedS]
  exact foldl_preserves _ (plotStackedStepS_preserves _) _ (s, _)

lemma plot_stackedS_dicts (s : Store (ℕ → NLLs)) (r : ℕ) (xlims : ℚ × ℚ)
    (ibin : ℕ) : (plot_stackedS s r xlims ibin).1.dicts = s.dicts := by
  simp only [plot_stackedS]
  exact foldl_dicts_const _ (plotStackedStepS_dicts _) _ (s, _)

/-- The figure `plot_stackedS` draws depends on the store only through the
dict cell it reads. -/
lemma plot_stackedS_fig_congr {s s2 : Store (ℕ → NLLs)} (r : ℕ) (xlims : ℚ × ℚ)
    (ibin : ℕ) (h : s2.readDict r = s.readDict r) :
    (plot_stackedS s2 r xlims ibin).2 = (plot_stackedS s r xlims ibin).2 := by
  simp only [plot_stackedS]
  simp only [foldl_axis_indep (plotStackedStepS (linspace xlims.1 xlims.2 100))
    (fun kv a =>
      if kv.1.toLower = "stacked" then
        a.plot (linspace xlims.1 xlims.2 100) (kv.2.interp (linspace xlims.1 xlims.2 100))
          none (some kv.1) (some 3)
      else
        a.plot (linspace xlims.1 xlims.2 100)
          (shiftMin (kv.2.interp (linspace xlims.1 xlims.2 100))) none (some kv.1) none)
    (fun st a kv => plotStackedStepS_axis (linspace xlims.1 xlims.2 100) (st, a) kv)]
  rw [h]

lemma plot_limitsS_preserves (s : Store CastS) (r : ℕ) (xlims ylims : ℚ × ℚ)
    (alpha : ℚ) : Preserves s (plot_limitsS s r xlims ylims alpha).1 := by
  simp only [plot_limitsS]
  exact foldl_preserves _ (plotLimitsStepS_preserves _) _ (s, _)

lemma plot_limitsS_dicts (s : Store CastS) (r : ℕ) (xlims ylims : ℚ × ℚ)
    (alpha : ℚ) : (plot_limitsS s r xlims ylims alpha).1.dicts = s.dicts := by
  simp only [plot_limitsS]
  exact foldl_dicts_const _ (plotLimitsStepS_dicts _) _ (s, _)

/-- The `plot_limits` loop reads each entry's masses cell from the evolving
store, but those reads are stable over any store extending `s0` as long as
the masses references point into `s0`. -/
lemma plotLimitsLoop_axis (alpha : ℚ) (s0 : Store CastS) :
    ∀ (l : List (String × CastS)) (sa : Store CastS × Axis),
    Preserves s0 sa.1 → (∀ kv ∈ l, kv.2.masses < s0.arrays.length) →
    (l.foldl (plotLimitsStepS alpha) sa).2 =
      l.foldl (fun a kv => a.plot (s0.readArr kv.2.masses) (kv.2.getLimits alpha)
        none (some kv.1) (if kv.1.toLower = "stacked" then some 3 else none)) sa.2 := by
  intro l
  induction l with
  | nil => intro sa _ _; rfl
  | cons x t ih =>
    intro sa hp hm
    rw [List.foldl_cons, List.foldl_cons,
      ih _ (preserves_trans hp (plotLimitsStepS_preserves alpha sa x))
        (fun kv hkv => hm kv (List.mem_cons_of_mem x hkv))]
    congr 1
    rw [plotLimitsStepS_axis, readArr_of_preserves hp (hm x (List.mem_cons_self x t))]

lemma compareLimitsLoop_axis (alpha : ℚ) (s0 : Store CastS) :
    ∀ (l : List (String × CastS)) (sa : Store CastS × Axis),
    Preserves s0 sa.1 → (∀ kv ∈ l, kv.2.masses < s0.arrays.length) →
    (l.foldl (compareLimitsStepS alpha) sa).2 =
      l.foldl (fun a kv => a.plot (s0.readArr kv.2.masses) (kv.2.getLimits alpha)
        none (some kv.1) none) sa.2 := by
  intro l
  induction l with
  | nil => intro sa _ _; rfl
  | cons x t ih =>
    intro sa hp hm
    rw [List.foldl_cons, List.foldl_cons,
      ih _ (preserves_trans hp (compareLimitsStepS_preserves alpha sa x))
        (fun kv hkv => hm kv (List.mem_cons_of_mem x hkv))]
    congr 1
    rw [compareLimitsStepS_axis, readArr_of_preserves hp (hm x (List.mem_cons_self x t))]

/-- The figure `plot_limitsS` draws depends on the store only through the
dict cell and the masses cells it reads. -/
lemma plot_limitsS_fig_congr {s s2 : Store CastS} (r : ℕ) (xlims ylims : ℚ × ℚ)
    (alpha : ℚ) (hpres : Preserves s s2) (hr : r < s.dicts.length)
    (hm : ∀ kv ∈ s.readDict r, kv.2.masses < s.arrays.length) :
    (plot_limitsS s2 r xlims ylims alpha).2 = (plot_limitsS s r xlims ylims alpha).2 := by
  have hread : s2.readDict r = s.readDict r := readDict_of_preserves hpres hr
  simp only [plot_limitsS, hread]
  rw [plotLimitsLoop_axis alpha s (s.readDict r) _ hpres hm,
    plotLimitsLoop_axis alpha s (s.readDict r) _ (preserves_refl s) hm]

/-- The figure `compare_limitsS` draws depends on the store only through the
dict cell and the masses cells it reads. -/
lemma compare_limitsS_fig_congr {s s2 : Store CastS} (r : ℕ) (xlims ylims : ℚ × ℚ)
    (alpha : ℚ) (hpres : Preserves s s2) (hr : r < s.dicts.length)
    (hm : ∀ kv ∈ s.readDict r, kv.2.masses < s.arrays.length) :
    (compare_limitsS s2 r xlims ylims alpha).2 = (compare_limitsS s r xlims ylims alpha).2 := by
  have hread : s2.readDict r = s.readDict r := readDict_of_preserves hpres hr
  simp only [compare_limitsS, hread]
  rw [compareLimitsLoop_axis alpha s (s.readDict r) _ hpres hm,
    compareLimitsLoop_axis alpha s (s.readDict r) _ (preserves_refl s) hm]

lemma compare_limitsS_preserves (s : Store CastS) (r : ℕ) (xlims ylims : ℚ × ℚ)
    (alpha : ℚ) : Preserves s (compare_limitsS s r xlims ylims alpha).1 := by
  simp only [compare_limitsS]
  exact foldl_preserves _ (compareLimitsStepS_preserves _) _ (s, _)

lemma compare_limitsS_dicts (s : Store CastS) (r : ℕ) (xlims ylims : ℚ × ℚ)
    (alpha : ℚ) : (compare_limitsS s r xlims ylims alpha).1.dicts = s.dicts := by
  simp only [compare_limitsS]
  exact foldl_dicts_const _ (compareLimitsStepS_dicts _) _ (s, _)

lemma plot_limitS_preserves {V : Type} (rf : RealFns) (s : Store V) (cd : CastS)
    (ylims : Option (ℚ × ℚ)) (alpha : ℚ) :
    Preserves s (plot_limitS rf s cd ylims alpha).1 := by
  simp only [plot_limitS]
  exact preserves_allocArr (preserves_refl s) _

lemma plot_limitS_dicts {V : Type} (rf : RealFns) (s : Store V) (cd : CastS)
    (ylims : Option (ℚ × ℚ)) (alpha : ℚ) :
    (plot_limitS rf s cd ylims alpha).1.dicts = s.dicts := rfl

/-- The figure `plot_limitS` draws depends on the store only through the
masses cell it reads. -/
lemma plot_limitS_fig_congr {V : Type} (rf : RealFns) {s s2 : Store V} (cd : CastS)
    (ylims : Option (ℚ × ℚ)) (alpha : ℚ) (hpres : Preserves s s2)
    (hm : cd.masses < s.arrays.length) :
    (plot_limitS rf s2 cd ylims alpha).2 = (plot_limitS rf s cd ylims alpha).2 := by
  simp only [plot_limitS, readArr_of_preserves hpres hm, allocArr_read_self]

end StoreSem

/-! ## The claims -/

open DmPlotting StoreSem PlotCastroDm

/-- C3: `plot_dm_castro` is a pure delegation: for every CastroData-like
input with a non-empty masses array it returns exactly the result of
`plotCastro_base` applied to x-limits `(masses[0], masses[-1])`, the
caller's `ylims`, `nstep` and `zlims`, and the fixed mass / cross-section
axis labels, computing nothing else itself. -/
theorem c3_plot_dm_castro_delegation (π R : Type)
    (pcb : CastD π → PCArgs → Except String R) (cd : CastD π) (ylims : ℚ × ℚ)
    (nstep : ℕ) (zlims : Option (ℚ × ℚ)) (m0 : ℚ) (ms : List ℚ)
    (h : cd.masses = m0 :: ms) :
    plot_dm_castro pcb cd ylims nstep zlims =
      pcb cd { xlims := (m0, ms.getLastD m0), ylims := ylims,
               xlabel := mass_label, ylabel := sigmav_label,
               nstep := nstep, zlims := zlims } :=
  plot_dm_castro_eq pcb cd ylims nstep zlims m0 ms h

/-- C3 witness: the delegation equation evaluated at a concrete input. -/
theorem c3_plot_dm_castro_delegation_witness :
    plot_dm_castro (fun (_ : CastD Unit) (a : PCArgs) => Except.ok a.nstep)
      ⟨[2, 3, 9], ()⟩ (1, 2) 7 none = Except.ok 7 := by
  rw [c3_plot_dm_castro_delegation Unit ℕ
    (fun (_ : CastD Unit) (a : PCArgs) => Except.ok a.nstep)
    ⟨[2, 3, 9], ()⟩ (1, 2) 7 none 2 [3, 9] rfl]

/-- C8 counterexample: on an empty masses array (with `getLimits` answering
an empty array, so that the claimed shape test would pick the masses
themselves), `plot_limit` raises `IndexError` at `xbins[0]` and plots
nothing, against the claim's promise of a curve for every input. -/
theorem c8_counterexample :
    plot_limit ⟨id, id, id⟩ ⟨[], fun _ => Except.ok []⟩ none (1 / 20) =
      Except.error "IndexError" := rfl

/-- C8 (amended): for every input with a NON-EMPTY masses array `m` of
length n, if `getLimits alpha` answers an array of length n the limit curve
is plotted against `m` itself, and otherwise against the geometric means
`sqrt(m[i] * m[i+1])` of adjacent masses. -/
theorem c8_xvals_shape_amended (rf : RealFns) (cd : CastL)
    (ylims : Option (ℚ × ℚ)) (alpha : ℚ) (m0 : ℚ) (ms : List ℚ) (ys : List ℚ)
    (h1 : cd.masses = m0 :: ms) (h2 : cd.getLimits alpha = Except.ok ys) :
    ∃ t : Figure × Axis, plot_limit rf cd ylims alpha = Except.ok t ∧
      (ys.length = cd.masses.length →
        t.2.curves = [⟨cd.masses, ys, none, none, none⟩]) ∧
      (ys.length ≠ cd.masses.length →
        t.2.curves = [⟨geomMeans rf cd.masses, ys, none, none, none⟩]) := by
  obtain ⟨ax, hok, hc, -⟩ := plot_limit_ok rf cd ylims alpha m0 ms ys h1 h2
  refine ⟨_, hok, ?_, ?_⟩
  · intro hlen
    rw [hc, if_pos hlen]
  · intro hlen
    rw [hc, if_neg hlen]

/-- C8 witness: the amended shape test at a concrete input where the limits
array is one shorter than the masses array. -/
theorem c8_xvals_shape_amended_witness :
    ∃ t : Figure × Axis,
      plot_limit ⟨id, id, id⟩ ⟨[1, 4], fun _ => Except.ok [5]⟩ none (1 / 20) =
        Except.ok t ∧
      (([5] : List ℚ).length = ([1, 4] : List ℚ).length →
        t.2.curves = [⟨[1, 4], [5], none, none, none⟩]) ∧
      (([5] : List ℚ).length ≠ ([1, 4] : List ℚ).length →
        t.2.curves = [⟨geomMeans ⟨id, id, id⟩ [1, 4], [5], none, none, none⟩]) :=
  c8_xvals_shape_amended ⟨id, id, id⟩ ⟨[1, 4], fun _ => Except.ok [5]⟩ none
    (1 / 20) 1 [4] [5] rfl rfl

/-- C1 counterexample: `plot_castro_nuiscance` returns an axis with no
legend at a concrete input, and so does `plot_limit`; the claim that every
plotting function of `dm_plotting` adds a legend is false. -/
theorem c1_counterexample :
    (plot_castro_nuiscance (0, 1) (1, 2) [[3]] none).2.1.leg = none ∧
    (plot_limit ⟨id, id, id⟩ ⟨[1, 2], fun _ => Except.ok [5, 6]⟩ none (1 / 20)).map
      (fun t => t.2.leg) = Except.ok none :=
  ⟨rfl, rfl⟩

/-- C1 (amended): `plot_nll`, `plot_comparison`, `plot_stacked`,
`plot_limits` and `compare_limits` add a legend to the axes and return the
created figure with its axis and that legend; `plot_castro_nuiscance` and
`plot_limit` return the created figure and axis WITHOUT adding a legend;
and `plot_dm_castro` returns the delegate's result unchanged. -/
theorem c1_legend_amended :
    (∀ (rf : RealFns) (d : List (String × NLLi)) (xl yl : Option (ℚ × ℚ)) (n : ℕ)
      (t : Figure × Axis × LegendSpec), plot_nll rf d xl n yl = Except.ok t →
      t.1.axes = [t.2.1] ∧ t.2.1.leg = some t.2.2) ∧
    (∀ (nll : NLLComp) (n : ℕ) (xl : Option (ℚ × ℚ)) (t : Figure × Axis × LegendSpec),
      plot_comparison nll n xl = Except.ok t →
      t.1.axes = [t.2.1] ∧ t.2.1.leg = some t.2.2) ∧
    (∀ (sdict : List (String × (ℕ → NLLi))) (xlims : ℚ × ℚ) (ibin : ℕ)
      (t : Figure × Axis × LegendSpec), plot_stacked sdict xlims ibin = Except.ok t →
      t.1.axes = [t.2.1] ∧ t.2.1.leg = some t.2.2) ∧
    (∀ (sdict : List (String × CastL)) (xlims ylims : ℚ × ℚ) (alpha : ℚ)
      (t : Figure × Axis × LegendSpec), plot_limits sdict xlims ylims alpha = Except.ok t →
      t.1.axes = [t.2.1] ∧ t.2.1.leg = some t.2.2) ∧
    (∀ (sdict : List (String × CastL)) (xlims ylims : ℚ × ℚ) (alpha : ℚ)
      (t : Figure × Axis × LegendSpec), compare_limits sdict xlims ylims alpha = Except.ok t →
      t.1.axes = [t.2.1] ∧ t.2.1.leg = some t.2.2) ∧
    (∀ (xl yl : ℚ × ℚ) (z : List (List ℚ)) (zl : Option (ℚ × ℚ)),
      (plot_castro_nuiscance xl yl z zl).2.1.leg = none ∧
      (plot_castro_nuiscance xl yl z zl).1.axes = [(plot_castro_nuiscance xl yl z zl).2.1]) ∧
    (∀ (rf : RealFns) (cd : CastL) (ylims : Option (ℚ × ℚ)) (alpha : ℚ)
      (t : Figure × Axis), plot_limit rf cd ylims alpha = Except.ok t →
      t.1.axes = [t.2] ∧ t.2.leg = none) ∧
    (∀ (π R : Type) (pcb : CastD π → PCArgs → Except String R) (cd : CastD π)
      (ylims : ℚ × ℚ) (nstep : ℕ) (zlims : Option (ℚ × ℚ)) (m0 : ℚ) (ms : List ℚ),
      cd.masses = m0 :: ms →
      plot_dm_castro pcb cd ylims nstep zlims =
        pcb cd { xlims := (m0, ms.getLastD m0), ylims := ylims,
                 xlabel := mass_label, ylabel := sigmav_label,
                 nstep := nstep, zlims := zlims }) :=
  ⟨fun _ _ _ _ _ _ h => plot_nll_ok_inv h,
   fun _ _ _ _ h => plot_comparison_ok_inv h,
   fun _ _ _ _ h => plot_stacked_ok_inv h,
   fun _ _ _ _ _ h => plot_limits_ok_inv h,
   fun _ _ _ _ _ h => compare_limits_ok_inv h,
   fun xl yl z zl => ⟨(plot_castro_nuiscance_spec xl yl z zl).1,
     (plot_castro_nuiscance_spec xl yl z zl).2.1⟩,
   fun _ _ _ _ _ h => plot_limit_ok_inv h,
   fun _ _ pcb cd ylims nstep zlims m0 ms h =>
     plot_dm_castro_eq pcb cd ylims nstep zlims m0 ms h⟩

/-- C1 witness: the legend clause of `plot_limits` applied to a concretely
computed figure: the returned axis carries a legend. -/
theorem c1_legend_amended_witness :
    (plot_limits [("a", ⟨[1, 2], fun _ => Except.ok [7, 8]⟩)] (1, 2) (3, 4) (1 / 20)).map
      (fun t => t.2.1.leg.isSome) = Except.ok true := by
  obtain ⟨ax, hok, -, hleg⟩ := plot_limits_ok
    [("a", ⟨[1, 2], fun _ => Except.ok [7, 8]⟩)] (1, 2) (3, 4) (1 / 20)
    (fun _ => [7, 8]) (by intro kv hkv; rw [List.mem_singleton] at hkv; subst hkv; rfl)
  have h2 := (c1_legend_amended.2.2.2.1 [("a", ⟨[1, 2], fun _ => Except.ok [7, 8]⟩)]
    (1, 2) (3, 4) (1 / 20) _ hok).2
  rw [hok]
  simp only [Except.map]
  rw [h2]
  rfl

/-- C2 counterexample: at a concrete input `plot_nll`'s interpolant produces
the value 5 on the one-point grid, yet the plotted y-data is 0 — the code
subtracts the curve's minimum, so the plotted values are NOT the produced
values passed through unchanged. -/
theorem c2_counterexample :
    (plot_nll ⟨id, id, id⟩ [("a", ⟨fun xs => Except.ok (xs.map (fun _ => 5))⟩)]
      (some (1, 2)) 1 none).map (fun t => t.2.1.curves.map Curve.ydata) =
      Except.ok [[0]] ∧
    NLLi.interp ⟨fun xs => Except.ok (xs.map (fun _ => 5))⟩
      (nllGrid ⟨id, id, id⟩ (some (1, 2)) 1) = Except.ok [5] ∧
    ([[(0 : ℚ)]] ≠ [[(5 : ℚ)]]) := by
  have hgrid : nllGrid ⟨id, id, id⟩ (some (1, 2)) 1 = [1] := rfl
  have hf : NLLi.interp ⟨fun xs => Except.ok (xs.map (fun _ => 5))⟩
      (nllGrid ⟨id, id, id⟩ (some (1, 2)) 1) = Except.ok [5] := by
    rw [hgrid]
    rfl
  refine ⟨?_, hf, by decide⟩
  obtain ⟨ax, hok, hc, -⟩ := plot_nll_ok ⟨id, id, id⟩
    [("a", ⟨fun xs => Except.ok (xs.map (fun _ => 5))⟩)] (some (1, 2)) 1 none
    (fun _ => [5])
    (by intro kv hkv; rw [List.mem_singleton] at hkv; subst hkv
        exact ⟨hf, by decide⟩)
  rw [hok]
  simp only [Except.map]
  rw [hc]
  simp [shiftMin, minD]

/-- C2 (amended): `plot_comparison`, `plot_limits`, `compare_limits` and
`plot_limit` hand the produced likelihood/limit values to the plotting
library unchanged; the exceptions are `plot_nll` and the non-"stacked"
curves of `plot_stacked`, whose y-values are shifted by subtracting the
curve's minimum, and `plot_limit`, whose x-values may be derived geometric
mean bin centers when the limits array is shorter than the masses array. -/
theorem c2_passthrough_amended :
    (∀ (nll : NLLComp) (n : ℕ) (xl : Option (ℚ × ℚ)) (f0 f1 f2 : List ℚ),
      nll.straight_loglike (compGrid nll xl n) = Except.ok f0 →
      nll.profile_loglike (compGrid nll xl n) = Except.ok f1 →
      nll.marginal_loglike (compGrid nll xl n) = Except.ok f2 →
      f0 ≠ [] → f1 ≠ [] → f2 ≠ [] →
      ∃ t : Figure × Axis × LegendSpec, plot_comparison nll n xl = Except.ok t ∧
        t.2.1.curves.map Curve.ydata = [f0, f1]) ∧
    (∀ (sdict : List (String × CastL)) (xlims ylims : ℚ × ℚ) (alpha : ℚ)
      (f : String × CastL → List ℚ),
      (∀ kv ∈ sdict, kv.2.getLimits alpha = Except.ok (f kv)) →
      ∃ t : Figure × Axis × LegendSpec, plot_limits sdict xlims ylims alpha = Except.ok t ∧
        t.2.1.curves.map Curve.ydata = sdict.map f ∧
        t.2.1.curves.map Curve.xdata = sdict.map (fun kv => kv.2.masses)) ∧
    (∀ (sdict : List (String × CastL)) (xlims ylims : ℚ × ℚ) (alpha : ℚ)
      (f : String × CastL → List ℚ),
      (∀ kv ∈ sdict, kv.2.getLimits alpha = Except.ok (f kv)) →
      ∃ t : Figure × Axis × LegendSpec, compare_limits sdict xlims ylims alpha = Except.ok t ∧
        t.2.1.curves.map Curve.ydata = sdict.map f ∧
        t.2.1.curves.map Curve.xdata = sdict.map (fun kv => kv.2.masses)) ∧
    (∀ (rf : RealFns) (cd : CastL) (ylims : Option (ℚ × ℚ)) (alpha : ℚ)
      (m0 : ℚ) (ms ys : List ℚ), cd.masses = m0 :: ms →
      cd.getLimits alpha = Except.ok ys →
      ∃ t : Figure × Axis, plot_limit rf cd ylims alpha = Except.ok t ∧
        t.2.curves.map Curve.ydata = [ys]) ∧
    (∀ (rf : RealFns) (d : List (String × NLLi)) (xl yl : Option (ℚ × ℚ)) (n : ℕ)
      (f : String × NLLi → List ℚ),
      (∀ kv ∈ d, kv.2.interp (nllGrid rf xl n) = Except.ok (f kv) ∧ f kv ≠ []) →
      ∃ t : Figure × Axis × LegendSpec, plot_nll rf d xl n yl = Except.ok t ∧
        t.2.1.curves.map Curve.ydata = d.map (fun kv => shiftMin (f kv))) ∧
    (∀ (sdict : List (String × (ℕ → NLLi))) (xlims : ℚ × ℚ) (ibin : ℕ)
      (f : String × NLLi → List ℚ),
      (∀ kv ∈ sdict.map (fun kv => (kv.1, kv.2 ibin)),
        kv.2.interp (linspace xlims.1 xlims.2 100) = Except.ok (f kv) ∧
        (kv.1.toLower ≠ "stacked" → f kv ≠ [])) →
      ∃ t : Figure × Axis × LegendSpec, plot_stacked sdict xlims ibin = Except.ok t ∧
        t.2.1.curves.map Curve.ydata = (sdict.map (fun kv => (kv.1, kv.2 ibin))).map
          (fun kv => if kv.1.toLower = "stacked" then f kv else shiftMin (f kv))) ∧
    (∀ (xl yl : ℚ × ℚ) (z : List (List ℚ)) (zl : Option (ℚ × ℚ)),
      (plot_castro_nuiscance xl yl z zl).2.2.zvals = z) := by
  refine ⟨?_, ?_, ?_, ?_, ?_, ?_, ?_⟩
  · intro nll n xl f0 f1 f2 h0 h1 h2 hne0 hne1 hne2
    obtain ⟨ax, hok, hc, -⟩ := plot_comparison_ok nll n xl f0 f1 f2 h0 h1 h2 hne0 hne1 hne2
    refine ⟨_, hok, ?_⟩
    rw [hc]
    rfl
  · intro sdict xlims ylims alpha f hf
    obtain ⟨ax, hok, hc, -⟩ := plot_limits_ok sdict xlims ylims alpha f hf
    refine ⟨_, hok, ?_, ?_⟩
    · rw [hc, List.map_map]
      rfl
    · rw [hc, List.map_map]
      rfl
  · intro sdict xlims ylims alpha f hf
    obtain ⟨ax, hok, hc, -⟩ := compare_limits_ok sdict xlims ylims alpha f hf
    refine ⟨_, hok, ?_, ?_⟩
    · rw [hc, List.map_map]
      rfl
    · rw [hc, List.map_map]
      rfl
  · intro rf cd ylims alpha m0 ms ys h1 h2
    obtain ⟨ax, hok, hc, -⟩ := plot_limit_ok rf cd ylims alpha m0 ms ys h1 h2
    refine ⟨_, hok, ?_⟩
    rw [hc]
    rfl
  · intro rf d xl yl n f hf
    obtain ⟨ax, hok, hc, -⟩ := plot_nll_ok rf d xl n yl f hf
    refine ⟨_, hok, ?_⟩
    rw [hc, List.map_map]
    rfl
  · intro sdict xlims ibin f hf
    obtain ⟨ax, hok, hc, -⟩ := plot_stacked_ok sdict xlims ibin f hf
    refine ⟨_, hok, ?_⟩
    rw [hc, List.map_map]
    congr 1
    funext kv
    by_cases hs : kv.1.toLower = "stacked"
    · rw [if_pos hs]
      simp [if_pos hs]
    · rw [if_neg hs]
      simp [if_neg hs]
  · intro xl yl z zl
    exact (plot_castro_nuiscance_spec xl yl z zl).2.2

/-- C2 witness: the limits pass-through clause at a concrete input: the
plotted y-data is exactly the produced limits array. -/
theorem c2_passthrough_amended_witness :
    ∃ t : Figure × Axis × LegendSpec,
      plot_limits [("b", ⟨[1, 2, 3], fun _ => Except.ok [9, 9]⟩)] (1, 3) (2, 4) (1 / 20) =
        Except.ok t ∧
      t.2.1.curves.map Curve.ydata = [[9, 9]] ∧
      t.2.1.curves.map Curve.xdata = [[1, 2, 3]] :=
  c2_passthrough_amended.2.1 [("b", ⟨[1, 2, 3], fun _ => Except.ok [9, 9]⟩)]
    (1, 3) (2, 4) (1 / 20) (fun _ => [9, 9])
    (by intro kv hkv; rw [List.mem_singleton] at hkv; subst hkv; rfl)

/-- C9: in `plot_nll` every plotted curve, and in `plot_stacked` every curve
whose key is not "stacked" case-insensitively, is shifted by subtracting its
minimum over the sampled grid, so the plotted y-values have minimum exactly
0; a `plot_stacked` curve whose key is "stacked" case-insensitively is
plotted without the shift and with line width 3. -/
theorem c9_normalization :
    (∀ (rf : RealFns) (d : List (String × NLLi)) (xl yl : Option (ℚ × ℚ)) (n : ℕ)
      (f : String × NLLi → List ℚ),
      (∀ kv ∈ d, kv.2.interp (nllGrid rf xl n) = Except.ok (f kv) ∧ f kv ≠ []) →
      ∃ t : Figure × Axis × LegendSpec, plot_nll rf d xl n yl = Except.ok t ∧
        t.2.1.curves = d.map
          (fun kv => ⟨nllGrid rf xl n, shiftMin (f kv), none, some kv.1, none⟩) ∧
        ∀ c ∈ t.2.1.curves, minD c.ydata 0 = 0) ∧
    (∀ (sdict : List (String × (ℕ → NLLi))) (xlims : ℚ × ℚ) (ibin : ℕ)
      (f : String × NLLi → List ℚ),
      (∀ kv ∈ sdict.map (fun kv => (kv.1, kv.2 ibin)),
        kv.2.interp (linspace xlims.1 xlims.2 100) = Except.ok (f kv) ∧
        (kv.1.toLower ≠ "stacked" → f kv ≠ [])) →
      ∃ t : Figure × Axis × LegendSpec, plot_stacked sdict xlims ibin = Except.ok t ∧
        ∀ kv ∈ sdict.map (fun kv => (kv.1, kv.2 ibin)),
          (kv.1.toLower = "stacked" →
            (⟨linspace xlims.1 xlims.2 100, f kv, none, some kv.1, some 3⟩ : Curve)
              ∈ t.2.1.curves) ∧
          (kv.1.toLower ≠ "stacked" →
            (⟨linspace xlims.1 xlims.2 100, shiftMin (f kv), none, some kv.1, none⟩ : Curve)
              ∈ t.2.1.curves ∧ minD (shiftMin (f kv)) 0 = 0)) := by
  constructor
  · intro rf d xl yl n f hf
    obtain ⟨ax, hok, hc, -⟩ := plot_nll_ok rf d xl n yl f hf
    refine ⟨_, hok, hc, ?_⟩
    intro c hcmem
    rw [hc] at hcmem
    obtain ⟨kv, hkv, rfl⟩ := List.mem_map.1 hcmem
    exact minD_shiftMin (hf kv hkv).2
  · intro sdict xlims ibin f hf
    obtain ⟨ax, hok, hc, -⟩ := plot_stacked_ok sdict xlims ibin f hf
    refine ⟨_, hok, ?_⟩
    intro kv hkv
    constructor
    · intro hs
      rw [hc]
      exact List.mem_map.2 ⟨kv, hkv, by rw [if_pos hs]⟩
    · intro hs
      refine ⟨?_, minD_shiftMin ((hf kv hkv).2 hs)⟩
      rw [hc]
      exact List.mem_map.2 ⟨kv, hkv, by rw [if_neg hs]⟩

/-- C9 witness: the `plot_nll` normalization clause at a concrete input. -/
theorem c9_normalization_witness :
    ∃ t : Figure × Axis × LegendSpec,
      plot_nll ⟨id, id, id⟩ [("a", ⟨fun xs => Except.ok (xs.map (fun _ => 5))⟩)]
        (some (1, 2)) 1 none = Except.ok t ∧
      t.2.1.curves = [("a", (⟨fun xs => Except.ok (xs.map (fun _ => 5))⟩ : NLLi))].map
        (fun kv => ⟨nllGrid ⟨id, id, id⟩ (some (1, 2)) 1,
          shiftMin ((fun _ => [5]) kv), none, some kv.1, none⟩) ∧
      ∀ c ∈ t.2.1.curves, minD c.ydata 0 = 0 :=
  c9_normalization.1 ⟨id, id, id⟩
    [("a", ⟨fun xs => Except.ok (xs.map (fun _ => 5))⟩)] (some (1, 2)) none 1
    (fun _ => [5])
    (by intro kv hkv; rw [List.mem_singleton] at hkv; subst hkv
        refine ⟨?_, by decide⟩
        rw [show nllGrid ⟨id, id, id⟩ (some (1, 2)) 1 = [1] from rfl]
        rfl)

/-- C7: for every entry `(key, val)` of `sdict`, `plot_limits` and
`compare_limits` plot exactly the curve `(val.masses, val.getLimits alpha)`,
unchanged, on log-scaled x and y axes clipped to the given `xlims` and
`ylims`. -/
theorem c7_limits_pass_through :
    (∀ (sdict : List (String × CastL)) (xlims ylims : ℚ × ℚ) (alpha : ℚ)
      (f : String × CastL → List ℚ),
      (∀ kv ∈ sdict, kv.2.getLimits alpha = Except.ok (f kv)) →
      ∃ t : Figure × Axis × LegendSpec,
        plot_limits sdict xlims ylims alpha = Except.ok t ∧
        t.2.1.curves = sdict.map (fun kv => ⟨kv.2.masses, f kv, none, some kv.1,
          if kv.1.toLower = "stacked" then some 3 else none⟩) ∧
        t.2.1.xscale = Scale.log ∧ t.2.1.yscale = Scale.log ∧
        t.2.1.xlim = some (xlims.1, xlims.2) ∧ t.2.1.ylim = some (ylims.1, ylims.2)) ∧
    (∀ (sdict : List (String × CastL)) (xlims ylims : ℚ × ℚ) (alpha : ℚ)
      (f : String × CastL → List ℚ),
      (∀ kv ∈ sdict, kv.2.getLimits alpha = Except.ok (f kv)) →
      ∃ t : Figure × Axis × LegendSpec,
        compare_limits sdict xlims ylims alpha = Except.ok t ∧
        t.2.1.curves = sdict.map (fun kv => ⟨kv.2.masses, f kv, none, some kv.1, none⟩) ∧
        t.2.1.xscale = Scale.log ∧ t.2.1.yscale = Scale.log ∧
        t.2.1.xlim = some (xlims.1, xlims.2) ∧ t.2.1.ylim = some (ylims.1, ylims.2)) := by
  constructor
  · intro sdict xlims ylims alpha f hf
    obtain ⟨ax, hok, hc, -, hx, hy, hxl, hyl, -, -⟩ :=
      plot_limits_ok sdict xlims ylims alpha f hf
    exact ⟨_, hok, hc, hx, hy, hxl, hyl⟩
  · intro sdict xlims ylims alpha f hf
    obtain ⟨ax, hok, hc, -, hx, hy, hxl, hyl⟩ :=
      compare_limits_ok sdict xlims ylims alpha f hf
    exact ⟨_, hok, hc, hx, hy, hxl, hyl⟩

/-- C7 witness: the `plot_limits` clause at a concrete two-entry dict, the
"stacked" key getting line width 3. -/
theorem c7_limits_pass_through_witness :
    ∃ t : Figure × Axis × LegendSpec,
      plot_limits [("a", ⟨[1, 2], fun _ => Except.ok [7]⟩),
        ("Stacked", ⟨[3, 4], fun _ => Except.ok [8]⟩)] (1, 4) (5, 6) (1 / 20) =
        Except.ok t ∧
      t.2.1.curves = [("a", (⟨[1, 2], fun _ => Except.ok [7]⟩ : CastL)),
        ("Stacked", ⟨[3, 4], fun _ => Except.ok [8]⟩)].map
        (fun kv => ⟨kv.2.masses, (if kv.1 = "a" then [7] else [8] : List ℚ), none,
          some kv.1, if kv.1.toLower = "stacked" then some 3 else none⟩) ∧
      t.2.1.xscale = Scale.log ∧ t.2.1.yscale = Scale.log ∧
      t.2.1.xlim = some ((1 : ℚ), (4 : ℚ)) ∧ t.2.1.ylim = some ((5 : ℚ), (6 : ℚ)) :=
  c7_limits_pass_through.1
    [("a", ⟨[1, 2], fun _ => Except.ok [7]⟩), ("Stacked", ⟨[3, 4], fun _ => Except.ok [8]⟩)]
    (1, 4) (5, 6) (1 / 20) (fun kv => if kv.1 = "a" then [7] else [8])
    (by intro kv hkv
        rw [List.mem_cons] at hkv
        rcases hkv with rfl | hkv
        · decide
        · rw [List.mem_singleton] at hkv
          subst hkv
          decide)

/-- C10 counterexample: with `--output` provided as the EMPTY string the
argument is provided yet falsy in Python, so `main` skips the save and
returns the plot tuple instead of `None`: "returns None iff `--output` is
provided" is false. -/
theorem c10_counterexample :
    main (⟨fun _ _ => Except.ok (), fun _ _ => Except.ok ⟨[1, 2], ()⟩,
        fun _ _ => Except.ok 7, id, fun _ _ => Except.ok ()⟩ :
        Env Unit Unit ℕ ℕ) ⟨"c", "f", some ""⟩ = Except.ok (some 7, []) ∧
    (Args.output ⟨"c", "f", some ""⟩).isSome = true := by
  exact ⟨by decide, rfl⟩

/-- C10 (amended): `main` returns `None` iff `--output` is provided with a
NON-EMPTY string, in which case the figure `dm_plot[0]` is saved to that
path before returning; when `--output` is absent or empty, `main` returns
the plot tuple produced by `plot_dm_castro`. -/
theorem c10_main_output_amended (τ π R F : Type) (env : Env τ π R F) (args : Args)
    (tm ts : τ) (cd : CastD π) (r : R) (m0 : ℚ) (ms : List ℚ)
    (h1 : env.read args.input "MASSES" = Except.ok tm)
    (h2 : env.read args.input args.chan = Except.ok ts)
    (h3 : env.create_from_tables ts tm = Except.ok cd)
    (hm : cd.masses = m0 :: ms)
    (h4 : env.pcb cd { xlims := (m0, ms.getLastD m0),
                       ylims := (1 / 10 ^ 28, 1 / 10 ^ 22), xlabel := mass_label,
                       ylabel := sigmav_label, nstep := 100, zlims := none } = Except.ok r)
    (h5 : ∀ p, env.savefig (env.proj0 r) p = Except.ok ()) :
    (truthy args.output = true →
      main env args = Except.ok (none, [(env.proj0 r, args.output.getD "")])) ∧
    (truthy args.output = false →
      main env args = Except.ok (some r, [])) := by
  have hplot : plot_dm_castro env.pcb cd = Except.ok r := by
    rw [plot_dm_castro_eq env.pcb cd (1 / 10 ^ 28, 1 / 10 ^ 22) 100 none m0 ms hm]
    exact h4
  constructor
  · intro ht
    simp only [main]
    rw [h1, bind_ok, h2, bind_ok, h3, bind_ok, hplot, bind_ok, if_pos ht,
      h5 (args.output.getD ""), bind_ok]
    rfl
  · intro ht
    simp only [main]
    rw [h1, bind_ok, h2, bind_ok, h3, bind_ok, hplot, bind_ok,
      if_neg (by rw [ht]; exact Bool.false_ne_true)]
    rfl

/-- C10 witness: the amended behaviour at a concrete environment, with a
non-empty output path: the figure is saved there and `None` returned. -/
theorem c10_main_output_amended_witness :
    (truthy (some "out.png") = true →
      main (⟨fun _ _ => Except.ok (), fun _ _ => Except.ok ⟨[1, 2], ()⟩,
          fun _ _ => Except.ok 7, id, fun _ _ => Except.ok ()⟩ :
          Env Unit Unit ℕ ℕ) ⟨"c", "f", some "out.png"⟩ =
        Except.ok (none, [(7, (some "out.png" : Option String).getD "")])) ∧
    (truthy (some "out.png") = false →
      main (⟨fun _ _ => Except.ok (), fun _ _ => Except.ok ⟨[1, 2], ()⟩,
          fun _ _ => Except.ok 7, id, fun _ _ => Except.ok ()⟩ :
          Env Unit Unit ℕ ℕ) ⟨"c", "f", some "out.png"⟩ =
        Except.ok (some 7, [])) :=
  c10_main_output_amended Unit Unit ℕ ℕ
    ⟨fun _ _ => Except.ok (), fun _ _ => Except.ok ⟨[1, 2], ()⟩,
      fun _ _ => Except.ok 7, id, fun _ _ => Except.ok ()⟩
    ⟨"c", "f", some "out.png"⟩ () () ⟨[1, 2], ()⟩ 7 1 [2]
    rfl rfl rfl rfl rfl (fun _ => rfl)

/-- C4: no function of the repository catches, suppresses or transforms
errors: when a delegated call (the `plotCastro_base` delegate, a likelihood
interpolant, a log-likelihood evaluator, `getLimits`, a table read or
`savefig` in the script) raises, the enclosing function's result is that
same error, unchanged; the code introduces no error branch of its own. -/
theorem c4_error_propagation :
    (∀ (π R : Type) (pcb : CastD π → PCArgs → Except String R) (cd : CastD π)
      (ylims : ℚ × ℚ) (nstep : ℕ) (zlims : Option (ℚ × ℚ)) (e : String)
      (m0 : ℚ) (ms : List ℚ), cd.masses = m0 :: ms →
      (∀ a, pcb cd a = Except.error e) →
      plot_dm_castro pcb cd ylims nstep zlims = Except.error e) ∧
    (∀ (rf : RealFns) (pre : List (String × NLLi)) (lab : String) (nl : NLLi)
      (rest : List (String × NLLi)) (xl yl : Option (ℚ × ℚ)) (n : ℕ) (e : String),
      (∀ kv ∈ pre, ∃ ys, kv.2.interp (nllGrid rf xl n) = Except.ok ys ∧ ys ≠ []) →
      nl.interp (nllGrid rf xl n) = Except.error e →
      plot_nll rf (pre ++ (lab, nl) :: rest) xl n yl = Except.error e) ∧
    (∀ (nll : NLLComp) (n : ℕ) (xl : Option (ℚ × ℚ)) (e : String),
      nll.straight_loglike (compGrid nll xl n) = Except.error e →
      plot_comparison nll n xl = Except.error e) ∧
    (∀ (nll : NLLComp) (n : ℕ) (xl : Option (ℚ × ℚ)) (f0 : List ℚ) (e : String),
      nll.straight_loglike (compGrid nll xl n) = Except.ok f0 →
      nll.profile_loglike (compGrid nll xl n) = Except.error e →
      plot_comparison nll n xl = Except.error e) ∧
    (∀ (nll : NLLComp) (n : ℕ) (xl : Option (ℚ × ℚ)) (f0 f1 : List ℚ) (e : String),
      nll.straight_loglike (compGrid nll xl n) = Except.ok f0 →
      nll.profile_loglike (compGrid nll xl n) = Except.ok f1 →
      nll.marginal_loglike (compGrid nll xl n) = Except.error e →
      plot_comparison nll n xl = Except.error e) ∧
    (∀ (pre : List (String × (ℕ → NLLi))) (lab : String) (v : ℕ → NLLi)
      (rest : List (String × (ℕ → NLLi))) (xlims : ℚ × ℚ) (ibin : ℕ) (e : String),
      (∀ kv ∈ pre.map (fun kv => (kv.1, kv.2 ibin)),
        ∃ ys, kv.2.interp (linspace xlims.1 xlims.2 100) = Except.ok ys ∧
          (kv.1.toLower ≠ "stacked" → ys ≠ [])) →
      (v ibin).interp (linspace xlims.1 xlims.2 100) = Except.error e →
      plot_stacked (pre ++ (lab, v) :: rest) xlims ibin = Except.error e) ∧
    (∀ (pre : List (String × CastL)) (lab : String) (cl : CastL)
      (rest : List (String × CastL)) (xlims ylims : ℚ × ℚ) (alpha : ℚ) (e : String),
      (∀ kv ∈ pre, ∃ ys, kv.2.getLimits alpha = Except.ok ys) →
      cl.getLimits alpha = Except.error e →
      plot_limits (pre ++ (lab, cl) :: rest) xlims ylims alpha = Except.error e) ∧
    (∀ (pre : List (String × CastL)) (lab : String) (cl : CastL)
      (rest : List (String × CastL)) (xlims ylims : ℚ × ℚ) (alpha : ℚ) (e : String),
      (∀ kv ∈ pre, ∃ ys, kv.2.getLimits alpha = Except.ok ys) →
      cl.getLimits alpha = Except.error e →
      compare_limits (pre ++ (lab, cl) :: rest) xlims ylims alpha = Except.error e) ∧
    (∀ (rf : RealFns) (cd : CastL) (ylims : Option (ℚ × ℚ)) (alpha : ℚ) (e : String)
      (m0 : ℚ) (ms : List ℚ), cd.masses = m0 :: ms →
      cd.getLimits alpha = Except.error e →
      plot_limit rf cd ylims alpha = Except.error e) ∧
    (∀ (τ π R F : Type) (env : Env τ π R F) (args : Args) (e : String),
      env.read args.input "MASSES" = Except.error e →
      main env args = Except.error e) ∧
    (∀ (τ π R F : Type) (env : Env τ π R F) (args : Args) (tm : τ) (e : String),
      env.read args.input "MASSES" = Except.ok tm →
      env.read args.input args.chan = Except.error e →
      main env args = Except.error e) ∧
    (∀ (τ π R F : Type) (env : Env τ π R F) (args : Args) (tm ts : τ) (e : String),
      env.read args.input "MASSES" = Except.ok tm →
      env.read args.input args.chan = Except.ok ts →
      env.create_from_tables ts tm = Except.error e →
      main env args = Except.error e) ∧
    (∀ (τ π R F : Type) (env : Env τ π R F) (args : Args) (tm ts : τ)
      (cd : CastD π) (e : String) (m0 : ℚ) (ms : List ℚ),
      env.read args.input "MASSES" = Except.ok tm →
      env.read args.input args.chan = Except.ok ts →
      env.create_from_tables ts tm = Except.ok cd →
      cd.masses = m0 :: ms →
      (∀ a, env.pcb cd a = Except.error e) →
      main env args = Except.error e) ∧
    (∀ (τ π R F : Type) (env : Env τ π R F) (args : Args) (tm ts : τ)
      (cd : CastD π) (r : R) (e : String) (m0 : ℚ) (ms : List ℚ),
      env.read args.input "MASSES" = Except.ok tm →
      env.read args.input args.chan = Except.ok ts →
      env.create_from_tables ts tm = Except.ok cd →
      cd.masses = m0 :: ms →
      env.pcb cd { xlims := (m0, ms.getLastD m0),
                   ylims := (1 / 10 ^ 28, 1 / 10 ^ 22), xlabel := mass_label,
                   ylabel := sigmav_label, nstep := 100, zlims := none } = Except.ok r →
      truthy args.output = true →
      env.savefig (env.proj0 r) (args.output.getD "") = Except.error e →
      main env args = Except.error e) := by
  refine ⟨?_, ?_, ?_, ?_, ?_, ?_, ?_, ?_, ?_, ?_, ?_, ?_, ?_, ?_⟩
  · intro π R pcb cd ylims nstep zlims e m0 ms hm hpcb
    rw [plot_dm_castro_eq pcb cd ylims nstep zlims m0 ms hm]
    exact hpcb _
  · intro rf pre lab nl rest xl yl n e hpre herr
    simp only [plot_nll]
    rw [foldlM_first_error (plotNllStep (nllGrid rf xl n)) e pre (lab, nl) rest
      (fun a kv hkv => (hpre kv hkv).elim
        (fun ys hys => ⟨_, plotNllStep_ok hys.1 hys.2 a⟩))
      (fun a => plotNllStep_error herr a) _, bind_error]
  · intro nll n xl e herr
    simp only [plot_comparison]
    rw [herr, bind_error]
  · intro nll n xl f0 e h0 herr
    simp only [plot_comparison]
    rw [h0, bind_ok, herr, bind_error]
  · intro nll n xl f0 f1 e h0 h1 herr
    simp only [plot_comparison]
    rw [h0, bind_ok, h1, bind_ok, herr, bind_error]
  · intro pre lab v rest xlims ibin e hpre herr
    simp only [plot_stacked, List.map_append, List.map_cons]
    rw [foldlM_first_error (plotStackedStep (linspace xlims.1 xlims.2 100)) e
      (pre.map (fun kv => (kv.1, kv.2 ibin))) (lab, v ibin)
      (rest.map (fun kv => (kv.1, kv.2 ibin)))
      (fun a kv hkv => (hpre kv hkv).elim
        (fun ys hys => ⟨_, plotStackedStep_ok hys.1 hys.2 a⟩))
      (fun a => plotStackedStep_error herr a) _, bind_error]
  · intro pre lab cl rest xlims ylims alpha e hpre herr
    simp only [plot_limits]
    rw [foldlM_first_error (plotLimitsStep alpha) e pre (lab, cl) rest
      (fun a kv hkv => (hpre kv hkv).elim
        (fun ys hys => ⟨_, plotLimitsStep_ok hys a⟩))
      (fun a => plotLimitsStep_error herr a) _, bind_error]
  · intro pre lab cl rest xlims ylims alpha e hpre herr
    simp only [compare_limits]
    rw [foldlM_first_error (compareLimitsStep alpha) e pre (lab, cl) rest
      (fun a kv hkv => (hpre kv hkv).elim
        (fun ys hys => ⟨_, compareLimitsStep_ok hys a⟩))
      (fun a => compareLimitsStep_error herr a) _, bind_error]
  · intro rf cd ylims alpha e m0 ms hm herr
    simp only [plot_limit, hm, npFirst, npLast, bind_ok]
    rw [herr, bind_error]
  · intro τ π R F env args e herr
    simp only [main]
    rw [herr, bind_error]
  · intro τ π R F env args tm e h1 herr
    simp only [main]
    rw [h1, bind_ok, herr, bind_error]
  · intro τ π R F env args tm ts e h1 h2 herr
    simp only [main]
    rw [h1, bind_ok, h2, bind_ok, herr, bind_error]
  · intro τ π R F env args tm ts cd e m0 ms h1 h2 h3 hm hpcb
    simp only [main]
    rw [h1, bind_ok, h2, bind_ok, h3, bind_ok,
      plot_dm_castro_eq env.pcb cd (1 / 10 ^ 28, 1 / 10 ^ 22) 100 none m0 ms hm,
      hpcb _, bind_error]
  · intro τ π R F env args tm ts cd r e m0 ms h1 h2 h3 hm h4 ht herr
    have hplot : plot_dm_castro env.pcb cd = Except.ok r := by
      rw [plot_dm_castro_eq env.pcb cd (1 / 10 ^ 28, 1 / 10 ^ 22) 100 none m0 ms hm]
      exact h4
    simp only [main]
    rw [h1, bind_ok, h2, bind_ok, h3, bind_ok, hplot, bind_ok, if_pos ht,
      herr, bind_error]

/-- C4 witness: a constant-error limit extractor's error surfaces unchanged
from `plot_limits`, and an erroring table read surfaces unchanged from the
script's `main`. -/
theorem c4_error_propagation_witness :
    plot_limits [("a", ⟨[1, 2], fun _ => Except.error "boom"⟩)] (1, 2) (3, 4) (1 / 20) =
      Except.error "boom" ∧
    main (⟨fun _ _ => Except.error "no such file", fun _ _ => Except.ok ⟨[1], ()⟩,
        fun _ _ => Except.ok 7, id, fun _ _ => Except.ok ()⟩ :
        Env Unit Unit ℕ ℕ) ⟨"c", "f", none⟩ = Except.error "no such file" :=
  ⟨c4_error_propagation.2.2.2.2.2.2.1 [] "a" ⟨[1, 2], fun _ => Except.error "boom"⟩
      [] (1, 2) (3, 4) (1 / 20) "boom" (by intro kv hkv; cases hkv) rfl,
    c4_error_propagation.2.2.2.2.2.2.2.2.2.1 Unit Unit ℕ ℕ
      ⟨fun _ _ => Except.error "no such file", fun _ _ => Except.ok ⟨[1], ()⟩,
        fun _ _ => Except.ok 7, id, fun _ _ => Except.ok ()⟩
      ⟨"c", "f", none⟩ "no such file" rfl⟩

/-- C5: no plotting function mutates its inputs or any persistent state: at
the store level every caller-supplied cell (arrays such as `masses`, and the
dict cells) survives each call unchanged, and each call leaves the dict heap
exactly as it was — `plot_stacked` builds a fresh `ndict` value instead of
modifying `sdict`'s cell. -/
theorem c5_no_mutation :
    (∀ (rf : RealFns) (s : Store NLLs) (r : ℕ) (xl yl : Option (ℚ × ℚ)) (n : ℕ),
      Preserves s (plot_nllS rf s r xl n yl).1 ∧
      (plot_nllS rf s r xl n yl).1.dicts = s.dicts) ∧
    (∀ (s : Store (ℕ → NLLs)) (r : ℕ) (xlims : ℚ × ℚ) (ibin : ℕ),
      Preserves s (plot_stackedS s r xlims ibin).1 ∧
      (plot_stackedS s r xlims ibin).1.dicts = s.dicts) ∧
    (∀ (s : Store CastS) (r : ℕ) (xlims ylims : ℚ × ℚ) (alpha : ℚ),
      Preserves s (plot_limitsS s r xlims ylims alpha).1 ∧
      (plot_limitsS s r xlims ylims alpha).1.dicts = s.dicts) ∧
    (∀ (s : Store CastS) (r : ℕ) (xlims ylims : ℚ × ℚ) (alpha : ℚ),
      Preserves s (compare_limitsS s r xlims ylims alpha).1 ∧
      (compare_limitsS s r xlims ylims alpha).1.dicts = s.dicts) ∧
    (∀ (V : Type) (rf : RealFns) (s : Store V) (cd : CastS)
      (ylims : Option (ℚ × ℚ)) (alpha : ℚ),
      Preserves s (plot_limitS rf s cd ylims alpha).1 ∧
      (plot_limitS rf s cd ylims alpha).1.dicts = s.dicts) ∧
    (∀ (V π R : Type) (pcb : CastD π → PCArgs → R) (s : Store V) (cd : CastDs π)
      (ylims : ℚ × ℚ) (nstep : ℕ) (zlims : Option (ℚ × ℚ)),
      (plot_dm_castroS pcb s cd ylims nstep zlims).1 = s) ∧
    (∀ (V : Type) (s : Store V) (xl yl : ℚ × ℚ) (z : List (List ℚ))
      (zl : Option (ℚ × ℚ)), (plot_castro_nuiscanceS s xl yl z zl).1 = s) ∧
    (∀ (V : Type) (s : Store V) (nll : NLLCompS) (nstep : ℕ)
      (xl : Option (ℚ × ℚ)), (plot_comparisonS s nll nstep xl).1 = s) :=
  ⟨fun rf s r xl yl n => ⟨plot_nllS_preserves rf s r xl n yl, plot_nllS_dicts rf s r xl n yl⟩,
   fun s r xlims ibin => ⟨plot_stackedS_preserves s r xlims ibin, plot_stackedS_dicts s r xlims ibin⟩,
   fun s r xlims ylims alpha => ⟨plot_limitsS_preserves s r xlims ylims alpha,
     plot_limitsS_dicts s r xlims ylims alpha⟩,
   fun s r xlims ylims alpha => ⟨compare_limitsS_preserves s r xlims ylims alpha,
     compare_limitsS_dicts s r xlims ylims alpha⟩,
   fun _ rf s cd ylims alpha => ⟨plot_limitS_preserves rf s cd ylims alpha,
     plot_limitS_dicts rf s cd ylims alpha⟩,
   fun _ _ _ _ _ _ _ _ _ => rfl,
   fun _ _ _ _ _ _ => rfl,
   fun _ _ _ _ _ => rfl⟩

/-- C6: every function of `dm_plotting` is deterministic: with deterministic
external collaborators and valid input references, running the same call a
second time (from the heap the first call left behind) configures the axes
identically — the same figure, axis state (scales, limits, labels, curve
data) and legend — since no call caches or hides state in the heap. -/
theorem c6_determinism :
    (∀ (rf : RealFns) (s : Store NLLs) (r : ℕ) (xl yl : Option (ℚ × ℚ)) (n : ℕ),
      (plot_nllS rf (plot_nllS rf s r xl n yl).1 r xl n yl).2 =
        (plot_nllS rf s r xl n yl).2) ∧
    (∀ (s : Store (ℕ → NLLs)) (r : ℕ) (xlims : ℚ × ℚ) (ibin : ℕ),
      (plot_stackedS (plot_stackedS s r xlims ibin).1 r xlims ibin).2 =
        (plot_stackedS s r xlims ibin).2) ∧
    (∀ (s : Store CastS) (r : ℕ) (xlims ylims : ℚ × ℚ) (alpha : ℚ),
      r < s.dicts.length → (∀ kv ∈ s.readDict r, kv.2.masses < s.arrays.length) →
      (plot_limitsS (plot_limitsS s r xlims ylims alpha).1 r xlims ylims alpha).2 =
        (plot_limitsS s r xlims ylims alpha).2) ∧
    (∀ (s : Store CastS) (r : ℕ) (xlims ylims : ℚ × ℚ) (alpha : ℚ),
      r < s.dicts.length → (∀ kv ∈ s.readDict r, kv.2.masses < s.arrays.length) →
      (compare_limitsS (compare_limitsS s r xlims ylims alpha).1 r xlims ylims alpha).2 =
        (compare_limitsS s r xlims ylims alpha).2) ∧
    (∀ (V : Type) (rf : RealFns) (s : Store V) (cd : CastS)
      (ylims : Option (ℚ × ℚ)) (alpha : ℚ), cd.masses < s.arrays.length →
      (plot_limitS rf (plot_limitS rf s cd ylims alpha).1 cd ylims alpha).2 =
        (plot_limitS rf s cd ylims alpha).2) ∧
    (∀ (V π R : Type) (pcb : CastD π → PCArgs → R) (s : Store V) (cd : CastDs π)
      (ylims : ℚ × ℚ) (nstep : ℕ) (zlims : Option (ℚ × ℚ)),
      (plot_dm_castroS pcb (plot_dm_castroS pcb s cd ylims nstep zlims).1
        cd ylims nstep zlims).2 = (plot_dm_castroS pcb s cd ylims nstep zlims).2) ∧
    (∀ (V : Type) (s : Store V) (xl yl : ℚ × ℚ) (z : List (List ℚ))
      (zl : Option (ℚ × ℚ)),
      (plot_castro_nuiscanceS (plot_castro_nuiscanceS s xl yl z zl).1 xl yl z zl).2 =
        (plot_castro_nuiscanceS s xl yl z zl).2) ∧
    (∀ (V : Type) (s : Store V) (nll : NLLCompS) (nstep : ℕ) (xl : Option (ℚ × ℚ)),
      (plot_comparisonS (plot_comparisonS s nll nstep xl).1 nll nstep xl).2 =
        (plot_comparisonS s nll nstep xl).2) := by
  refine ⟨?_, ?_, ?_, ?_, ?_, ?_, ?_, ?_⟩
  · intro rf s r xl yl n
    apply plot_nllS_fig_congr
    simp only [Store.readDict]
    rw [plot_nllS_dicts]
  · intro s r xlims ibin
    apply plot_stackedS_fig_congr
    simp only [Store.readDict]
    rw [plot_stackedS_dicts]
  · intro s r xlims ylims alpha hr hm
    exact plot_limitsS_fig_congr r xlims ylims alpha
      (plot_limitsS_preserves s r xlims ylims alpha) hr hm
  · intro s r xlims ylims alpha hr hm
    exact compare_limitsS_fig_congr r xlims ylims alpha
      (compare_limitsS_preserves s r xlims ylims alpha) hr hm
  · intro V rf s cd ylims alpha hm
    exact plot_limitS_fig_congr rf cd ylims alpha
      (plot_limitS_preserves rf s cd ylims alpha) hm
  · intro _ _ _ pcb s cd ylims nstep zlims
    rfl
  · intro _ s xl yl z zl
    rfl
  · intro _ s nll nstep xl
    rfl

/-- C6 witness: running `plot_limitsS` twice over a concrete one-cell heap
draws the same figure both times. -/
theorem c6_determinism_witness :
    (plot_limitsS (plot_limitsS ⟨[[1, 2]], [[("a", ⟨0, fun _ => [5]⟩)]]⟩
        0 (1, 2) (3, 4) (1 / 20)).1 0 (1, 2) (3, 4) (1 / 20)).2 =
      (plot_limitsS (⟨[[1, 2]], [[("a", ⟨0, fun _ => [5]⟩)]]⟩ : Store CastS)
        0 (1, 2) (3, 4) (1 / 20)).2 :=
  c6_determinism.2.2.1 ⟨[[1, 2]], [[("a", ⟨0, fun _ => [5]⟩)]]⟩ 0 (1, 2) (3, 4)
    (1 / 20) (by decide) (by decide)
